import Mathlib

/-!
# Verification of the timeline-state-resolver device cores

A shallow embedding, in Lean 4, of the state-reconciliation cores of the
`timeline-state-resolver` repository:

* the HTTP-send device (`src/packages/timeline-state-resolver/src/devices/httpSend.ts`):
  timeline-shaped device state, `_diffStates`, the queue callback of `_addToQueue`,
  the relevance check and retry logic of `_defaultCommandReceiver`, and `init`;
* the Quantel device (`src/packages/timeline-state-resolver-types/src/generated/httpSend.ts`,
  second embedded source file): `convertStateToQuantel`, `_diffStates`, `init`, and the
  `QuantelManager` executor with its tracked state and TTL cache;
* the CasparCG device (`src/src/devices/casparCG.ts`): the layer loop of
  `convertStateToCaspar`, in particular mapping resolution for lookahead layers and
  foreground/background (nextUp) placement.

JavaScript objects keyed by strings are modelled as association lists in insertion
order (`alookup` is property access); JS `Array.prototype.sort` is modelled by
`List.mergeSort`, which is stable exactly as the ECMAScript specification requires;
numeric timestamps and frame counts are modelled as `Int`; `undefined`/optional fields
as `Option`; JS truthiness checks are spelled out at each use site. Asynchronous
methods of the device collaborators are modelled by a deterministic environment of
responses, and the mutable `QuantelManager` by explicit state passing in a
state-with-errors monad whose state survives a throw (as TS mutations do).
-/

/-! ## Association-list helpers (JS objects in insertion order) -/

/-- Property access `obj[key]` on a JS object modelled as an association list. -/
def alookup {α : Type} (k : String) : List (String × α) → Option α
  | [] => none
  | (k', v) :: rest => if k' = k then some v else alookup k rest

/-- `map.set(key, value)` of a JS `Map` / property write: replaces in place,
appends at the end when absent (JS objects and Maps keep insertion order). -/
def aset {α : Type} (k : String) (v : α) : List (String × α) → List (String × α)
  | [] => [(k, v)]
  | (k', v') :: rest => if k' = k then (k, v) :: rest else (k', v') :: aset k v rest

/-- `map.delete(key)` / `delete obj[key]`. -/
def adel {α : Type} (k : String) (l : List (String × α)) : List (String × α) :=
  l.filter (fun p => p.1 ≠ k)

/-- Integer-keyed variant (used for `loadedFragments[clipId]` and CasparCG channels). -/
def ilookup {α : Type} (k : Int) : List (Int × α) → Option α
  | [] => none
  | (k', v) :: rest => if k' = k then some v else ilookup k rest

def iset {α : Type} (k : Int) (v : α) : List (Int × α) → List (Int × α)
  | [] => [(k, v)]
  | (k', v') :: rest => if k' = k then (k, v) :: rest else (k', v') :: iset k v rest

/-! ## HTTP-send device: data model

`HTTPSendState = TimelineState`; a resolved timeline layer carries an object id and a
content payload (`HTTPSendCommandContent`). The `params` payload takes part in the deep
equality `_.isEqual(oldLayer.content, newLayer.content)`; it is modelled structurally,
so Lean's structural equality is exactly deep equality of the payload. -/

inductive HttpMethod where
  | get | post | put | delete
deriving DecidableEq, Repr

/-- A JSON-ish primitive value, for `params` payloads and CasparCG mixer values. -/
inductive JsonPrim where
  | null
  | bool (b : Bool)
  | num (n : Int)
  | str (s : String)
deriving DecidableEq, Repr

/-- `HTTPSendCommandContent`: `{type, url, params?, temporalPriority?, queueId?}`. -/
structure HTTPSendCommandContent where
  type : HttpMethod
  url : String
  params : Option (List (String × JsonPrim)) := none
  temporalPriority : Option Int := none
  queueId : Option String := none
deriving DecidableEq, Repr

/-- A resolved timeline object on a layer, as the HTTP device reads it
(`newLayer.id`, `newLayer.content`). -/
structure HttpTimelineObject where
  id : String
  content : HTTPSendCommandContent
deriving DecidableEq, Repr

/-- `TimelineState` as consumed by the HTTP device (`nextEvents` is never read). -/
structure HttpTimelineState where
  time : Int
  layers : List (String × HttpTimelineObject)
deriving DecidableEq, Repr

inductive CommandName where
  | added | changed | removed
deriving DecidableEq, Repr

/-- The `Command` record accumulated by `HTTPSendDevice._diffStates`. -/
structure HttpCommand where
  commandName : CommandName
  content : HTTPSendCommandContent
  context : String
  timelineObjId : String
  layer : String
deriving DecidableEq, Repr

/-- `convertStateToHttpSend` returns the timeline state unchanged
("won't even use this.mapping"). -/
def convertStateToHttpSend (state : HttpTimelineState) : HttpTimelineState :=
  state

/-- Comparator `(a, b) => a.layer.localeCompare(b.layer)` of the first sort. -/
def leLayer (a b : HttpCommand) : Bool :=
  decide (a.layer ≤ b.layer)

/-- The effective temporal priority `a.content.temporalPriority || 0`. -/
def tprio (c : HttpCommand) : Int :=
  c.content.temporalPriority.getD 0

/-- Comparator `(a, b) => (a.content.temporalPriority || 0) - (b.content.temporalPriority || 0)`
of the second sort. -/
def lePrio (a b : HttpCommand) : Bool :=
  decide (tprio a ≤ tprio b)

/-- The first loop of `HTTPSendDevice._diffStates`: walk the new layers, emitting
an added command for a fresh layer and a changed command for a layer whose
content deep-differs. -/
def httpDiffAddedChanged (oldState newState : HttpTimelineState) : List HttpCommand :=
  newState.layers.filterMap (fun p =>
    match alookup p.1 oldState.layers with
    | none =>
      some { commandName := .added
             content := p.2.content
             context := "added: " ++ p.2.id
             timelineObjId := p.2.id
             layer := p.1 }
    | some oldLayer =>
      if oldLayer.content = p.2.content then
        none
      else
        some { commandName := .changed
               content := p.2.content
               context := "changed: " ++ p.2.id ++ " (previously: " ++ oldLayer.id ++ ")"
               timelineObjId := p.2.id
               layer := p.1 })

/-- The second loop of `HTTPSendDevice._diffStates`: a removed command for each
old layer no longer present. -/
def httpDiffRemoved (oldState newState : HttpTimelineState) : List HttpCommand :=
  oldState.layers.filterMap (fun p =>
    match alookup p.1 newState.layers with
    | some _ => none
    | none =>
      some { commandName := .removed
             content := p.2.content
             context := "removed: " ++ p.2.id
             timelineObjId := p.2.id
             layer := p.1 })

/-- `HTTPSendDevice._diffStates`: the two walks above, then `commands.sort` by
layer name and (stably) `commands.sort` by temporal priority. -/
def httpDiffStates (oldState newState : HttpTimelineState) : List HttpCommand :=
  ((httpDiffAddedChanged oldState newState ++ httpDiffRemoved oldState newState).mergeSort
      leLayer).mergeSort lePrio

/-- The `added` command `_diffStates` builds for a fresh layer. -/
def addedCommand (layerKey : String) (newLayer : HttpTimelineObject) : HttpCommand :=
  { commandName := .added
    content := newLayer.content
    context := "added: " ++ newLayer.id
    timelineObjId := newLayer.id
    layer := layerKey }

/-- The `changed` command `_diffStates` builds for a layer with differing content. -/
def changedCommand (layerKey : String) (newLayer oldLayer : HttpTimelineObject) : HttpCommand :=
  { commandName := .changed
    content := newLayer.content
    context := "changed: " ++ newLayer.id ++ " (previously: " ++ oldLayer.id ++ ")"
    timelineObjId := newLayer.id
    layer := layerKey }

/-- The `removed` command `_diffStates` builds for a vanished layer. -/
def removedCommand (layerKey : String) (oldLayer : HttpTimelineObject) : HttpCommand :=
  { commandName := .removed
    content := oldLayer.content
    context := "removed: " ++ oldLayer.id
    timelineObjId := oldLayer.id
    layer := layerKey }

/-! ## HTTP-send device: queue callback, relevance check, retry

`_addToQueue` enqueues each diff command; at fire time the callback either records
the layer fingerprint and hands the content to the command receiver (added/changed),
or deletes the fingerprint and returns null (removed). `_defaultCommandReceiver`
first checks the fingerprint, then issues the request; its catch-block schedules a
retry for network-class error codes when `resendTime` was configured. -/

/-- A concrete rendering of `JSON.stringify` for a params primitive. -/
def stringifyPrim : JsonPrim → String
  | .null => "null"
  | .bool b => if b then "true" else "false"
  | .num n => toString n
  | .str s => "\"" ++ s ++ "\""

/-- `JSON.stringify` of a params object. -/
def stringifyParams (l : List (String × JsonPrim)) : String :=
  "\x7b" ++ String.intercalate ","
    (l.map (fun p => "\"" ++ p.1 ++ "\":" ++ stringifyPrim p.2)) ++ "\x7d"

def stringifyMethod : HttpMethod → String
  | .get => "\"get\"" | .post => "\"post\"" | .put => "\"put\"" | .delete => "\"delete\""

/-- `JSON.stringify(cmd.content)`: the fingerprint stored in `activeLayers` and
compared by the receiver (optional fields that are `undefined` are omitted,
as `JSON.stringify` of a JS object omits them). -/
def stringifyContent (c : HTTPSendCommandContent) : String :=
  "\x7b\"type\":" ++ stringifyMethod c.type ++ ",\"url\":\"" ++ c.url ++ "\"" ++
  (match c.params with | some ps => ",\"params\":" ++ stringifyParams ps | none => "") ++
  (match c.temporalPriority with | some n => ",\"temporalPriority\":" ++ toString n | none => "") ++
  (match c.queueId with | some q => ",\"queueId\":\"" ++ q ++ "\"" | none => "") ++
  "\x7d"

/-- The invocation of the command receiver that the queue callback returns for
added/changed commands. -/
structure SendRequest where
  content : HTTPSendCommandContent
  context : String
  timelineObjId : String
  layer : String
deriving DecidableEq, Repr

/-- The queued callback of `HTTPSendDevice._addToQueue`: for added/changed commands
it records `JSON.stringify(cmd.content)` under the layer in `activeLayers` and
invokes the command receiver; for removed commands it deletes the layer's
fingerprint and returns null. Returns the updated `activeLayers` map and the
receiver invocation (if any). -/
def addToQueueCallback (activeLayers : List (String × String)) (cmd : HttpCommand) :
    List (String × String) × Option SendRequest :=
  if cmd.commandName = .added ∨ cmd.commandName = .changed then
    (aset cmd.layer (stringifyContent cmd.content) activeLayers,
     some { content := cmd.content
            context := cmd.context
            timelineObjId := cmd.timelineObjId
            layer := cmd.layer })
  else
    (adel cmd.layer activeLayers, none)

/-- The relevance check at the top of `_defaultCommandReceiver`: when a layer was
passed (and is truthy, i.e. a non-empty string), the send proceeds only when
`JSON.stringify(cmd)` equals the fingerprint stored for that layer; otherwise the
receiver returns without issuing a request. `true` means the request is issued. -/
def receiverSends (activeLayers : List (String × String)) (layer : Option String)
    (cmd : HTTPSendCommandContent) : Bool :=
  match layer with
  | some l =>
    if l = "" then
      true
    else
      match alookup l activeLayers with
      | some hash => stringifyContent cmd = hash
      | none => false
  | none => true

/-- `HTTPSendDevice.init`: `resendTime && resendTime > 1 ? resendTime : undefined`
(`resendTime = 0` is falsy; values `≤ 1` disable the retry). -/
def initResendTime (resendTime : Option Int) : Option Int :=
  match resendTime with
  | some v => if v ≠ 0 ∧ v > 1 then some v else none
  | none => none

/-- The retryable network error codes of `_defaultCommandReceiver`. -/
def retryCodes : List String :=
  ["ETIMEDOUT", "ECONNRESET", "EADDRINUSE", "ECONNREFUSED", "EPIPE",
   "ENOTFOUND", "ENETUNREACH", "EHOSTUNREACH", "EAI_AGAIN"]

/-- A failed HTTP request as surfaced to the catch-block: whether the error object
has a `code` property, and its value. -/
structure HttpRequestError where
  hasCodeField : Bool
  code : String
deriving DecidableEq, Repr

/-- Outcome of one HTTP attempt in `_defaultCommandReceiver`. -/
inductive HttpAttemptOutcome where
  | ok (statusCode : Int)
  | err (e : HttpRequestError)
deriving DecidableEq, Repr

/-- The catch-block of `_defaultCommandReceiver`: on a failure whose error carries a
`code` in `retryCodes`, and when `this._resendTime` is set, re-issue the request
after `Math.max(resendTime - elapsed, 0)` ms. Returns the wait before the re-issued
request, or `none` when no retry is scheduled. -/
def retryAfterFailure (resendTime : Option Int) (e : HttpRequestError)
    (elapsed : Int) : Option Int :=
  if e.hasCodeField ∧ e.code ∈ retryCodes then
    match resendTime with
    | some rt => some (max (rt - elapsed) 0)
    | none => none
  else
    none

/-- Whether one attempt's outcome causes `_defaultCommandReceiver` to re-invoke
itself (a retry wave). -/
def schedulesRetry (resendTime : Option Int) (o : HttpAttemptOutcome) : Bool :=
  match o with
  | .ok _ => false
  | .err e => (retryAfterFailure resendTime e 0).isSome

/-- The sequence of attempts produced by the self-recursion of
`_defaultCommandReceiver`: attempt 0 is the original send, and attempt `n+1`
happens exactly when attempt `n` happened and its outcome scheduled a retry
(the re-invocation runs the full receiver again, catch-block included). -/
def attemptOccurs (resendTime : Option Int) (outcomes : Nat → HttpAttemptOutcome) :
    Nat → Bool
  | 0 => true
  | n + 1 => attemptOccurs resendTime outcomes n && schedulesRetry resendTime (outcomes n)

/-! ## Quantel device: state model, projector, differ, init

`QuantelState` keys ports by id; a port carries bound channels, a mode and an
optional clip. The differ compares per port and emits prepare-ahead commands
(`SETUPPORT`, `LOADCLIPFRAGMENTS`, `RELEASEPORT`) at `prepareTime` and transition
commands (`PLAYCLIP`, `PAUSECLIP`, `CLEARCLIP`) at the transition time. -/

def IDEAL_PREPARE_TIME : Int := 1000
def PREPARE_TIME_WAIT : Int := 50
def SOFT_JUMP_WAIT_TIME : Int := 100
def DEFAULT_FPS : Int := 50
def JUMP_ERROR_MARGIN : Int := 5

inductive QuantelControlMode where
  | quality | speed
deriving DecidableEq, Repr

inductive DeviceType where
  | abstract | casparcg | atem | httpsend | quantel
deriving DecidableEq, Repr

/-- A mapping-table entry. The TS `Mapping` is a device-specific record probed with
`_.has`; the device-specific fields are modelled as optional fields of one record
(`portId`/`channelId`/`mode` for Quantel, `channel`/`layer` for CasparCG). -/
structure Mapping where
  device : DeviceType
  deviceId : String
  portId : Option String := none
  channelId : Option Int := none
  mode : Option QuantelControlMode := none
  channel : Option Int := none
  layer : Option Int := none
deriving DecidableEq, Repr

/-- `QuantelStatePortClip`. -/
structure QuantelStatePortClip where
  title : String
  clipId : Option Int := none
  playing : Bool
  playTime : Option Int := none
  pauseTime : Option Int := none
  inPoint : Option Int := none
  length : Option Int := none
deriving DecidableEq, Repr

/-- `QuantelStatePort`. -/
structure QuantelStatePort where
  timelineObjId : String
  clip : Option QuantelStatePortClip := none
  mode : QuantelControlMode
  channels : List Int
deriving DecidableEq, Repr

/-- `QuantelState`. -/
structure QuantelState where
  time : Int
  port : List (String × QuantelStatePort)
deriving DecidableEq, Repr

/-- The timeline content the Quantel device reads off a layer
(`clip.content.title` etc.; `title` is checked for truthiness, so an absent or
empty title is modelled by `""`). -/
structure QuantelTLContent where
  title : String := ""
  pauseTime : Option Int := none
  playing : Option Bool := none
  inPoint : Option Int := none
  length : Option Int := none
  noStarttime : Bool := false
deriving DecidableEq, Repr

/-- A resolved timeline object as the Quantel device reads it
(`layer.id`, `layer.instance.start`, `layer.content`). -/
structure QuantelTLObject where
  id : String
  start : Int
  content : QuantelTLContent
deriving DecidableEq, Repr

structure QuantelTimelineState where
  time : Int
  layers : List (String × QuantelTLObject)
deriving DecidableEq, Repr

/-- `_.uniq`: deduplicate keeping first occurrences. -/
def jsUniq (l : List Int) : List Int :=
  l.foldl (fun acc x => if acc.contains x then acc else acc ++ [x]) []

/-- Whether a mapping-table entry is a usable Quantel mapping:
`mapping.device === DeviceType.QUANTEL && _.has(mapping,'portId') && _.has(mapping,'channelId')`. -/
def isQuantelMapping (m : Mapping) : Bool :=
  m.device = DeviceType.quantel ∧ m.portId.isSome ∧ m.channelId.isSome

/-- The first loop of `convertStateToQuantel`: create port skeletons from the mapping
table; each Quantel mapping contributes its `channelId` to the port's sorted,
deduplicated channel list (`_.sortBy(_.uniq(port.channels.concat([channelId])))`). -/
def quantelPortsFromMappings (mappings : List (String × Mapping)) :
    List (String × QuantelStatePort) :=
  mappings.foldl
    (fun acc p =>
      let m := p.2
      if isQuantelMapping m then
        let portId := m.portId.getD ""
        let channelId := m.channelId.getD 0
        let port :=
          match alookup portId acc with
          | some port => port
          | none =>
            { timelineObjId := ""
              mode := m.mode.getD QuantelControlMode.quality
              channels := [] }
        aset portId
          { port with channels := (jsUniq (port.channels ++ [channelId])).mergeSort (fun a b => decide (a ≤ b)) }
          acc
      else acc)
    []

/-- The clip object the second loop of `convertStateToQuantel` builds for a layer
(`playTime: (noStarttime ? null : layer.instance.start) || null`, so a start time
of `0` also becomes `null`; `playing` defaults to `true` when undefined). -/
def quantelClipOfLayer (layer : QuantelTLObject) : QuantelStatePortClip :=
  { title := layer.content.title
    pauseTime := layer.content.pauseTime
    playing := layer.content.playing.getD true
    inPoint := layer.content.inPoint
    length := layer.content.length
    playTime := if layer.content.noStarttime then none
                else if layer.start = 0 then none else some layer.start }

/-- `QuantelDevice.convertStateToQuantel`: build port skeletons from the mappings,
then walk the timeline layers; a layer contributes only when its own mapping is a
Quantel mapping, and throws `Port not found` when the port skeleton is missing
(unreachable when the same mapping table built the skeletons). -/
def convertStateToQuantel (mappings : List (String × Mapping))
    (timelineState : QuantelTimelineState) : Except String QuantelState := do
  let ports0 := quantelPortsFromMappings mappings
  let ports ← timelineState.layers.foldlM
    (fun acc p =>
      match alookup p.1 mappings with
      | some m =>
        if isQuantelMapping m then
          let portId := m.portId.getD ""
          match alookup portId acc with
          | none => Except.error ("Port \"" ++ portId ++ "\" not found")
          | some port =>
            if p.2.content.title ≠ "" then
              Except.ok (aset portId
                { port with timelineObjId := p.2.id, clip := some (quantelClipOfLayer p.2) }
                acc)
            else
              Except.ok acc
        else
          Except.ok acc
      | none => Except.ok acc)
    ports0
  return { time := timelineState.time, port := ports }

/-- The per-command interfaces of the Quantel differ output
(`QuantelCommandBase` plus the type-specific fields). -/
structure QuantelCommandBase where
  time : Int
  portId : String
  timelineObjId : String
deriving DecidableEq, Repr

structure QuantelCommandSetupPort extends QuantelCommandBase where
  channel : Int
deriving DecidableEq, Repr

structure QuantelCommandLoadClipFragments extends QuantelCommandBase where
  clip : QuantelStatePortClip
  timeOfPlay : Int
deriving DecidableEq, Repr

structure QuantelCommandClip extends QuantelCommandBase where
  clip : QuantelStatePortClip
  mode : QuantelControlMode
deriving DecidableEq, Repr

structure QuantelCommandClearClip extends QuantelCommandBase
deriving DecidableEq, Repr

structure QuantelCommandReleasePort extends QuantelCommandBase
deriving DecidableEq, Repr

/-- The discriminated union `QuantelCommand`. -/
inductive QuantelCommand where
  | setupPort (cmd : QuantelCommandSetupPort)
  | loadClipFragments (cmd : QuantelCommandLoadClipFragments)
  | playClip (cmd : QuantelCommandClip)
  | pauseClip (cmd : QuantelCommandClip)
  | clearClip (cmd : QuantelCommandClearClip)
  | releasePort (cmd : QuantelCommandReleasePort)
deriving DecidableEq, Repr

/-- The `time` field of a Quantel command. -/
def QuantelCommand.time : QuantelCommand → Int
  | .setupPort cmd => cmd.time
  | .loadClipFragments cmd => cmd.time
  | .playClip cmd => cmd.time
  | .pauseClip cmd => cmd.time
  | .clearClip cmd => cmd.time
  | .releasePort cmd => cmd.time

/-- The prepare-ahead command kinds (emitted at `prepareTime` by the differ). -/
def QuantelCommand.isPrepareCommand : QuantelCommand → Bool
  | .setupPort _ => true
  | .loadClipFragments _ => true
  | .releasePort _ => true
  | _ => false

/-- The `SETUPPORT` block of the per-port loop of `QuantelDevice._diffStates`
(only the first channel of a multi-channel port is used). -/
def quantelDiffSetupCommands (oldState : QuantelState) (prepareTime : Int)
    (portId : String) (newPort : QuantelStatePort) : List QuantelCommand :=
  if (match alookup portId oldState.port with
      | none => true
      | some oldPort => newPort.channels ≠ oldPort.channels) then
    match newPort.channels.head? with
    | some channel =>
      if channel ≠ 0 then
        [QuantelCommand.setupPort
          { time := prepareTime, portId := portId
            timelineObjId := newPort.timelineObjId, channel := channel }]
      else []
    | none => []
  else []

/-- The clip block of the per-port loop of `QuantelDevice._diffStates`. -/
def quantelDiffClipCommands (oldState : QuantelState) (prepareTime time : Int)
    (portId : String) (newPort : QuantelStatePort) : List QuantelCommand :=
  if (match alookup portId oldState.port with
      | none => true
      | some oldPort => newPort.clip ≠ oldPort.clip) then
    match newPort.clip with
    | some clip =>
      QuantelCommand.loadClipFragments
        { time := prepareTime, portId := portId
          timelineObjId := newPort.timelineObjId, clip := clip, timeOfPlay := time } ::
      (if clip.playing then
        [QuantelCommand.playClip
          { time := time, portId := portId
            timelineObjId := newPort.timelineObjId, clip := clip, mode := newPort.mode }]
      else
        [QuantelCommand.pauseClip
          { time := time, portId := portId
            timelineObjId := newPort.timelineObjId, clip := clip, mode := newPort.mode }])
    | none =>
      [QuantelCommand.clearClip
        { time := time, portId := portId, timelineObjId := newPort.timelineObjId }]
  else []

/-- The removed-ports loop of `QuantelDevice._diffStates`. -/
def quantelDiffRemovedCommands (oldState newState : QuantelState) (prepareTime : Int) :
    List QuantelCommand :=
  oldState.port.filterMap (fun p =>
    match alookup p.1 newState.port with
    | some _ => none
    | none =>
      some (QuantelCommand.releasePort
        { time := prepareTime, portId := p.1, timelineObjId := p.2.timelineObjId }))

/-- `QuantelDevice._diffStates`: per new port, emit `SETUPPORT` when the channel
binding changed, `LOADCLIPFRAGMENTS` + `PLAYCLIP`/`PAUSECLIP` (or `CLEARCLIP`)
when the clip changed, and `RELEASEPORT` for removed ports. Prepare commands carry
`prepareTime = Math.min(time, Math.max(time - IDEAL_PREPARE_TIME, oldState.time + PREPARE_TIME_WAIT))`. -/
def quantelDiffStates (oldState newState : QuantelState) (time : Int) :
    List QuantelCommand :=
  let prepareTime : Int :=
    min time (max (time - IDEAL_PREPARE_TIME) (oldState.time + PREPARE_TIME_WAIT))
  (newState.port.flatMap (fun p =>
    quantelDiffSetupCommands oldState prepareTime p.1 p.2 ++
    quantelDiffClipCommands oldState prepareTime time p.1 p.2)) ++
  quantelDiffRemovedCommands oldState newState prepareTime

/-- `QuantelOptions` as read by `QuantelDevice.init` (connection identity). -/
structure QuantelOptions where
  gatewayUrl : Option String := none
  ISAUrl : Option String := none
  zoneId : Option String := none
  serverId : Option Int := none
deriving DecidableEq, Repr

/-- JS truthiness of an optional string (absent or empty is falsy). -/
def truthyStr (o : Option String) : Bool :=
  match o with
  | some s => s ≠ ""
  | none => false

/-- JS truthiness of an optional number (absent or zero is falsy). -/
def truthyInt (o : Option Int) : Option Int :=
  match o with
  | some n => if n = 0 then none else some n
  | none => none

/-- The validation prefix of `QuantelDevice.init`: throw on a falsy `gatewayUrl`,
`ISAUrl` or `serverId` (in that order); otherwise proceed to
`this._quantel.init(gatewayUrl, ISAUrl, zoneId, serverId)` — `zoneId` is passed
through unvalidated. Returns the arguments of the gateway initialization. -/
def quantelInit (options : QuantelOptions) :
    Except String (String × String × Option String × Int) :=
  if ¬ truthyStr options.gatewayUrl then
    Except.error "Quantel bad connection option: gatewayUrl"
  else if ¬ truthyStr options.ISAUrl then
    Except.error "Quantel bad connection option: ISAUrl"
  else if (truthyInt options.serverId).isNone then
    Except.error "Quantel bad connection option: serverId"
  else
    Except.ok (options.gatewayUrl.getD "", options.ISAUrl.getD "",
               options.zoneId, options.serverId.getD 0)

/-! ## Quantel executor (`QuantelManager`): tracked state and protocol calls

The manager owns a mutable tracked state (`_quantelState`) and a TTL cache, and
talks to the gateway through asynchronous methods. The gateway is modelled by a
deterministic environment of responses; the manager's mutations by a state monad
whose state survives a thrown error, exactly as TS mutations survive a rejected
promise. `env.now` models both the injected `getCurrentTime()` and `Date.now()`. -/

/-- An error thrown by a gateway call or by the manager
(`e.status` backs the `e.status !== 404` check of `releasePort`). -/
structure GErr where
  status : Option Int := none
  message : String
deriving DecidableEq, Repr

def strErr (message : String) : GErr := { message := message }

/-- Gateway port status (`portStatus.endOfData`). -/
structure PortStatus where
  endOfData : Option Int := none
deriving DecidableEq, Repr

/-- Gateway clip record (`ClipID`, `PoolID`, `Frames`); `Frames` is parsed with
`parseInt` in TS and modelled as the parsed number (0 for an unparsable string). -/
structure ClipData where
  ClipID : Int
  PoolID : Option Int := none
  Frames : Int := 0
deriving DecidableEq, Repr

/-- Gateway server record (`server.ident`, `server.pools`). -/
structure ServerData where
  ident : Int
  pools : Option (List Int) := none
deriving DecidableEq, Repr

/-- A clip fragment (only `finish` is read, for the port out-point). -/
structure Fragment where
  finish : Int
deriving DecidableEq, Repr

structure FragmentsInfo where
  fragments : List Fragment
deriving DecidableEq, Repr

/-- The deterministic environment of gateway responses (the `QuantelGateway`
collaborator), plus the current time. -/
structure GatewayEnv where
  now : Int
  getPort : String → Except GErr (Option PortStatus)
  releasePort : String → Except GErr Unit
  createPort : String → Int → Except GErr Unit
  getServer : Except GErr (Option ServerData)
  getClip : Int → Except GErr (Option ClipData)
  searchClip : String → Except GErr (List ClipData)
  getClipFragments : Int → Except GErr FragmentsInfo
  getClipFragmentsInOut : Int → Int → Int → Except GErr FragmentsInfo
  loadFragmentsOntoPort : String → List Fragment → Int → Except GErr (Option PortStatus)
  portPrepareJump : String → Int → Except GErr Unit
  portTriggerJump : String → Except GErr Unit
  portHardJump : String → Int → Except GErr Unit
  portStop : String → Option Int → Except GErr Unit
  portPlay : String → Except GErr Unit
  portClear : String → Except GErr Unit

/-- `QuantelTrackedStatePort.loadedFragments[clipId]`. -/
structure QuantelLoadedFragmentsRecord where
  portInPoint : Int
  portOutPoint : Int
  inPoint : Int
  outPoint : Int
deriving DecidableEq, Repr

/-- Tracked state of one port. -/
structure QuantelTrackedStatePort where
  loadedFragments : List (Int × QuantelLoadedFragmentsRecord)
  channel : Int
  offset : Int
  playing : Bool
  jumpOffset : Option Int
  scheduledStop : Option Int
deriving DecidableEq, Repr

/-- `QuantelManager._quantelState`. -/
structure QuantelTrackedState where
  clipId : List (String × Int)
  port : List (String × QuantelTrackedStatePort)
deriving DecidableEq, Repr

/-- One TTL-cache entry (`{endTime, value}`; only clip ids are cached). -/
structure CacheEntry where
  endTime : Int
  value : Int
deriving DecidableEq, Repr

/-- The `Cache` instance of the manager. -/
structure CacheState where
  data : List (String × CacheEntry)
  callCount : Nat
deriving DecidableEq, Repr

/-- The full mutable state of a `QuantelManager`. -/
structure ManagerState where
  tracked : QuantelTrackedState
  cache : CacheState
deriving DecidableEq, Repr

/-- `Cache.exists`: present and not expired. -/
def cacheExists (c : CacheState) (key : String) (now : Int) : Bool :=
  match alookup key c.data with
  | some o => o.endTime ≥ now
  | none => false

/-- `Cache.get`. -/
def cacheGet (c : CacheState) (key : String) (now : Int) : Option Int :=
  match alookup key c.data with
  | some o => if o.endTime ≥ now then some o.value else none
  | none => none

/-- `Cache.set` with the default 30 s TTL; the counter-triggered sweep runs on a
deferred timer and has no synchronous effect, so only the counter reset is modelled. -/
def cacheSet (c : CacheState) (key : String) (value : Int) (now : Int) : CacheState :=
  let callCount := c.callCount + 1
  { data := aset key { endTime := now + 30000, value := value } c.data
    callCount := if callCount > 100 then 0 else callCount }

/-- The manager's effect monad: explicit state passing with errors that do not roll
the state back (TS mutations survive a rejected promise). -/
def QM (α : Type) : Type := ManagerState → Except GErr α × ManagerState

instance : Monad QM where
  pure a := fun s => (Except.ok a, s)
  bind m f := fun s =>
    match m s with
    | (Except.ok a, s') => f a s'
    | (Except.error e, s') => (Except.error e, s')

def getQ : QM ManagerState := fun s => (Except.ok s, s)

def modifyQ (f : ManagerState → ManagerState) : QM Unit := fun s => (Except.ok (), f s)

def throwQ {α : Type} (e : GErr) : QM α := fun s => (Except.error e, s)

/-- `await` on a gateway call: its settled result enters the monad. -/
def liftG {α : Type} (r : Except GErr α) : QM α := fun s => (r, s)

/-- `QuantelManager.getTrackedPort`: throws when the port was never set up. -/
def getTrackedPortQ (portId : String) : QM QuantelTrackedStatePort := do
  let st ← getQ
  match alookup portId st.tracked.port with
  | some trackedPort => pure trackedPort
  | none => throwQ (strErr ("Port " ++ portId ++ " missing in tracked quantel state"))

/-- A mutation `trackedPort.field = value` through the live reference held in
`_quantelState.port[portId]`. -/
def modifyPortQ (portId : String) (f : QuantelTrackedStatePort → QuantelTrackedStatePort) :
    QM Unit :=
  modifyQ (fun ms =>
    { ms with tracked :=
      { ms.tracked with port :=
        ms.tracked.port.map (fun p => if p.1 = portId then (p.1, f p.2) else p) } })

/-- `Math.round(num / den)` for `den > 0` (used for ms-to-frames conversions). -/
def jsRound (num den : Int) : Int :=
  Int.fdiv (2 * num + den) (2 * den)

namespace QuantelManager

/-- `QuantelManager.setupPort`: release any existing remote port, create one bound
to the channel, then initialize the tracked entry — only when the tracked port is
absent or bound to a different channel. -/
def setupPort (env : GatewayEnv) (cmd : QuantelCommandSetupPort) : QM Unit := do
  let st ← getQ
  let trackedPort := alookup cmd.portId st.tracked.port
  if (match trackedPort with
      | none => true
      | some tp => tp.channel ≠ cmd.channel) then
    let port ← liftG (env.getPort cmd.portId)
    if port.isSome then
      let _ ← liftG (env.releasePort cmd.portId)
    let _ ← liftG (env.createPort cmd.portId cmd.channel)
    let newTrackedPort : QuantelTrackedStatePort :=
      { loadedFragments := []
        offset := 0
        playing := false
        jumpOffset := none
        scheduledStop := none
        channel := cmd.channel }
    modifyQ (fun ms =>
      { ms with tracked :=
        { ms.tracked with port := aset cmd.portId newTrackedPort ms.tracked.port } })

/-- `QuantelManager.releasePort`: a 404 from the gateway is non-fatal
(releasing a non-existent port is OK); the tracked entry is dropped afterwards. -/
def releasePort (env : GatewayEnv) (cmd : QuantelCommandReleasePort) : QM Unit := do
  (match env.releasePort cmd.portId with
   | Except.ok _ => pure ()
   | Except.error e => if e.status = some 404 then pure () else throwQ e : QM Unit)
  modifyQ (fun ms =>
    { ms with tracked := { ms.tracked with port := adel cmd.portId ms.tracked.port } })

/-- `QuantelManager.getServer` (private helper): validates that the server exists
and exposes a non-empty `pools` array. -/
def getServerQ (env : GatewayEnv) : QM ServerData := do
  let server? ← liftG env.getServer
  match server? with
  | none => throwQ (strErr "Quantel server not found")
  | some server =>
    match server.pools with
    | none => throwQ (strErr "Server has no .pools")
    | some pools =>
      if pools.length = 0 then
        throwQ (strErr "Server has an empty .pools array")
      else
        pure server

/-- `QuantelManager.getClipId`: use `clip.clipId` when truthy; otherwise resolve the
title through the TTL cache, searching the gateway and recording the id in
`_quantelState.clipId` on a cache miss; throw when no truthy id was determined. -/
def getClipIdQ (env : GatewayEnv) (clip : QuantelStatePortClip) : QM Int := do
  let clipId0 := truthyInt clip.clipId
  let clipId1 : Option Int ←
    (match clipId0 with
     | some c => pure (some c)
     | none =>
       if clip.title ≠ "" then do
         let key := "clip." ++ clip.title ++ ".clipId"
         let st ← getQ
         if cacheExists st.cache key env.now then
           pure (cacheGet st.cache key env.now)
         else do
           let server ← getServerQ env
           let foundClips ← liftG (env.searchClip clip.title)
           match foundClips.find? (fun c =>
             match truthyInt c.PoolID with
             | some pool => (server.pools.getD []).contains pool
             | none => false) with
           | none => throwQ (strErr ("Clip \"" ++ clip.title ++ "\" not found on server"))
           | some foundClip => do
             modifyQ (fun ms =>
               { ms with tracked :=
                 { ms.tracked with clipId := aset clip.title foundClip.ClipID ms.tracked.clipId } })
             modifyQ (fun ms =>
               { ms with cache := cacheSet ms.cache key foundClip.ClipID env.now })
             pure (some foundClip.ClipID)
       else
         pure clipId0 : QM (Option Int))
  match truthyInt clipId1 with
  | none => throwQ (strErr ("Unable to determine clipId for clip " ++ clip.title))
  | some clipId => pure clipId

/-- The fetch path of `loadClipFragments`: fetch the clip's fragments, load them
onto the port at `endOfData`, and record the load in the tracked port. Returns
`(portInPoint, portOutPoint)`. -/
def loadClipFragmentsFetch (env : GatewayEnv) (cmd : QuantelCommandLoadClipFragments)
    (clipId : Int) (useInOutPoints : Bool) (inPointFrames outPointFrames : Int) :
    QM (Int × Int) := do
  let fragmentsInfo ← liftG
    (if useInOutPoints then env.getClipFragmentsInOut clipId inPointFrames outPointFrames
     else env.getClipFragments clipId)
  let portStatus? ← liftG (env.getPort cmd.portId)
  match portStatus? with
  | none => throwQ (strErr ("Port " ++ cmd.portId ++ " not found"))
  | some portStatus => do
    let portInPoint : Int := (truthyInt portStatus.endOfData).getD 0
    let newPortStatus? ← liftG (env.loadFragmentsOntoPort cmd.portId fragmentsInfo.fragments portInPoint)
    match newPortStatus? with
    | none => throwQ (strErr ("Port " ++ cmd.portId ++ " not found after loading fragments"))
    | some _ => do
      let portOutPoint : Int :=
        portInPoint +
          (fragmentsInfo.fragments.foldl (fun x y => if x > y.finish then x else y.finish) 0) - 1
      let loadedRecord : QuantelLoadedFragmentsRecord :=
        { portInPoint := portInPoint, portOutPoint := portOutPoint
          inPoint := inPointFrames, outPoint := outPointFrames }
      modifyPortQ cmd.portId (fun tp =>
        { tp with loadedFragments := iset clipId loadedRecord tp.loadedFragments })
      pure (portInPoint, portOutPoint)

/-- `QuantelManager.loadClipFragments`: resolve and validate the clip, reuse or
fetch-and-load its fragments, then — when there is still time before
`cmd.timeOfPlay` — schedule a stop containing the previously loaded clip and
prepare a soft jump to the fragments' in-point. -/
def loadClipFragments (env : GatewayEnv) (cmd : QuantelCommandLoadClipFragments) : QM Unit := do
  let trackedPort ← getTrackedPortQ cmd.portId
  let server ← getServerQ env
  let clipId ← getClipIdQ env cmd.clip
  let clipData? ← liftG (env.getClip clipId)
  match clipData? with
  | none => throwQ (strErr ("Clip " ++ toString clipId ++ " not found"))
  | some clipData =>
    match truthyInt clipData.PoolID with
    | none => throwQ (strErr ("Clip " ++ toString clipData.ClipID ++ " missing PoolID"))
    | some poolID => do
      if ¬ ((server.pools.getD []).contains poolID) then
        throwQ (strErr ("Clip PoolID " ++ toString poolID ++ " not found on server"))
      else do
        let useInOutPoints : Bool :=
          (truthyInt cmd.clip.inPoint).isSome ∨ (truthyInt cmd.clip.length).isSome
        let inPointFrames : Int :=
          match truthyInt cmd.clip.inPoint with
          | some inPoint => jsRound (inPoint * DEFAULT_FPS) 1000
          | none => 0
        let lengthFramesRounded : Int :=
          match truthyInt cmd.clip.length with
          | some length => jsRound (length * DEFAULT_FPS) 1000
          | none => 0
        let lengthFramesBase : Int :=
          if lengthFramesRounded ≠ 0 then lengthFramesRounded else clipData.Frames
        let lengthFrames : Int :=
          if (truthyInt cmd.clip.inPoint).isSome ∧ (truthyInt cmd.clip.length).isNone then
            lengthFramesBase - inPointFrames
          else
            lengthFramesBase
        let outPointFrames := inPointFrames + lengthFrames
        let pp : Int × Int ←
          (match ilookup clipId trackedPort.loadedFragments with
           | some loadedFragments =>
             if loadedFragments.inPoint = inPointFrames ∧
                loadedFragments.outPoint = outPointFrames then
               pure (loadedFragments.portInPoint, loadedFragments.portOutPoint)
             else
               loadClipFragmentsFetch env cmd clipId useInOutPoints inPointFrames outPointFrames
           | none =>
             loadClipFragmentsFetch env cmd clipId useInOutPoints inPointFrames outPointFrames :
           QM (Int × Int))
        let portInPoint := pp.1
        let timeLeftToPlay := cmd.timeOfPlay - env.now
        if timeLeftToPlay > 0 then do
          let trackedPortLive ← getTrackedPortQ cmd.portId
          if portInPoint > 0 ∧ trackedPortLive.scheduledStop = none then do
            let _ ← liftG (env.portStop cmd.portId (some (portInPoint - 1)))
            modifyPortQ cmd.portId (fun tp => { tp with scheduledStop := some (portInPoint - 1) })
          let _ ← liftG (env.portPrepareJump cmd.portId portInPoint)
          modifyPortQ cmd.portId (fun tp => { tp with jumpOffset := some portInPoint })

inductive PlayPauseAction where
  | play | pause
deriving DecidableEq, Repr

/-- `QuantelManager.prepareClipJump`: compute the desired jump offset, invalidate a
stale prepared jump, then either trigger the prepared jump, prepare-and-trigger a
soft jump (QUALITY), or issue an un-awaited hard jump (SPEED); for `play`, start
playback and schedule the stop at the fragments' out-point. -/
def prepareClipJump (env : GatewayEnv) (cmd : QuantelCommandClip)
    (alsoDoAction : Option PlayPauseAction) : QM Unit := do
  let trackedPort ← getTrackedPortQ cmd.portId
  let clipId ← getClipIdQ env cmd.clip
  match ilookup clipId trackedPort.loadedFragments with
  | none => throwQ (strErr ("Fragments of clip " ++ toString clipId ++ " wasn't loaded"))
  | some loadedFragments => do
    let jumpToOffset : Int :=
      loadedFragments.portInPoint +
        (match truthyInt cmd.clip.playTime with
         | some playTime =>
           Int.fdiv ((max 0 (((truthyInt cmd.clip.pauseTime).getD env.now) - playTime))
             * DEFAULT_FPS) 1000
         | none => 0)
    if (match trackedPort.jumpOffset with
        | some jumpOffset =>
          jumpOffset != 0 && decide ((jumpOffset - jumpToOffset).natAbs > 5)
        | none => false) then
      modifyPortQ cmd.portId (fun tp => { tp with jumpOffset := none })
    let trackedPortLive ← getTrackedPortQ cmd.portId
    match trackedPortLive.jumpOffset with
    | some _ => do
      if alsoDoAction = some PlayPauseAction.pause then do
        let _ ← liftG (env.portStop cmd.portId none)
        modifyPortQ cmd.portId (fun tp => { tp with scheduledStop := none, playing := false })
      let _ ← liftG (env.portTriggerJump cmd.portId)
      modifyPortQ cmd.portId (fun tp => { tp with offset := tp.jumpOffset.getD tp.offset })
    | none => do
      if cmd.mode = QuantelControlMode.quality then do
        let _ ← liftG (env.portPrepareJump cmd.portId jumpToOffset)
        modifyPortQ cmd.portId (fun tp => { tp with jumpOffset := some jumpToOffset })
        -- `await this.wait(SOFT_JUMP_WAIT_TIME)`: a real-time delay with no state effect
        if alsoDoAction = some PlayPauseAction.pause then do
          let _ ← liftG (env.portStop cmd.portId none)
          modifyPortQ cmd.portId (fun tp => { tp with scheduledStop := none, playing := false })
        let _ ← liftG (env.portTriggerJump cmd.portId)
        modifyPortQ cmd.portId (fun tp => { tp with offset := tp.jumpOffset.getD tp.offset })
      else do
        -- SPEED mode: `portHardJump` is issued without `await`; its result is discarded
        let _ := env.portHardJump cmd.portId jumpToOffset
        modifyPortQ cmd.portId (fun tp => { tp with offset := jumpToOffset, playing := false })
    if alsoDoAction = some PlayPauseAction.play then do
      let _ ← liftG (env.portPlay cmd.portId)
      modifyPortQ cmd.portId (fun tp => { tp with scheduledStop := none, playing := true })
      if loadedFragments.portOutPoint ≠ 0 then do
        let _ ← liftG (env.portStop cmd.portId (some loadedFragments.portOutPoint))
        modifyPortQ cmd.portId (fun tp =>
          { tp with scheduledStop := some loadedFragments.portOutPoint })

/-- `QuantelManager.playClip`. -/
def playClip (env : GatewayEnv) (cmd : QuantelCommandClip) : QM Unit :=
  prepareClipJump env cmd (some PlayPauseAction.play)

/-- `QuantelManager.pauseClip`. -/
def pauseClip (env : GatewayEnv) (cmd : QuantelCommandClip) : QM Unit :=
  prepareClipJump env cmd (some PlayPauseAction.pause)

/-- `QuantelManager.clearClip`: clear the port, then reset `jumpOffset`,
`loadedFragments` and `scheduledStop`. -/
def clearClip (env : GatewayEnv) (cmd : QuantelCommandClearClip) : QM Unit := do
  let _ ← getTrackedPortQ cmd.portId
  let _ ← liftG (env.portClear cmd.portId)
  modifyPortQ cmd.portId (fun tp =>
    { tp with jumpOffset := none, loadedFragments := [], scheduledStop := none })

end QuantelManager

/-! ## CasparCG device: projector layer loop (`convertStateToCaspar`)

The layer loop resolves the mapping (falling back to `lookaheadForLayer` for
lookahead layers), builds a `casparcg-state` layer from the content type, and
places it: foreground layers keep any previously placed `nextUp`; lookahead
layers become the `nextUp` of the existing foreground layer, or of a synthesized
empty (`NOTHING`, not playing) foreground layer. -/

inductive CCGContentType where
  | media | ip | input | template | htmlpage | route | record | unknown
deriving DecidableEq, Repr

inductive CCGLayerContentType where
  | media | input | template | htmlpage | route | record | nothing
deriving DecidableEq, Repr

/-- A timeline-side transition description (the fields read when constructing
`StateNS.Transition`). -/
structure TLTransition where
  type : String := ""
  duration : Option Int := none
  maskFile : Option String := none
  easing : Option String := none
  delay : Option Int := none
  direction : Option String := none
  overlayFile : Option String := none
deriving DecidableEq, Repr

structure TLTransitions where
  inTransition : Option TLTransition := none
  outTransition : Option TLTransition := none
deriving DecidableEq, Repr

/-- JS `a || b` for a number-or-string alternative (`duration || maskFile`). -/
def orIntStr (a : Option Int) (b : Option String) : Option (Sum Int String) :=
  match truthyInt a with
  | some n => some (Sum.inl n)
  | none => b.map Sum.inr

/-- JS `a || b` for a string-or-number alternative (`easing || delay`). -/
def orStrInt (a : Option String) (b : Option Int) : Option (Sum String Int) :=
  match a with
  | some s => if s ≠ "" then some (Sum.inl s) else b.map Sum.inr
  | none => b.map Sum.inr

/-- JS `a || b` on two optional strings (`direction || overlayFile`). -/
def orStrStr (a b : Option String) : Option String :=
  match a with
  | some s => if s ≠ "" then some s else b
  | none => b

/-- `new StateNS.Transition(type, duration || maskFile, easing || delay,
direction || overlayFile)`. -/
structure StateTransition where
  transitionType : String
  durationOrMask : Option (Sum Int String) := none
  easingOrDelay : Option (Sum String Int) := none
  directionOrOverlay : Option String := none
deriving DecidableEq, Repr

/-- The `media` field of a state layer: a plain media name, or a
`StateNS.TransitionObject` wrapping it. -/
inductive CCGMediaValue where
  | plain (s : String)
  | transitioned (base : Option String) (inTransition outTransition : Option StateTransition)
deriving DecidableEq, Repr

structure CCGInputProps where
  device : Int
  channelLayout : Option String := none
deriving DecidableEq, Repr

structure CCGRouteProps where
  channel : Int
  layer : Option Int := none
  channelLayout : Option String := none
deriving DecidableEq, Repr

/-- A `casparcg-state` layer without its `nextUp` slot (`StateNS.ILayerBase` plus
the union of the content-specific fields assigned by the projector). -/
structure CCGBaseLayer where
  layerNo : Int
  content : CCGLayerContentType
  media : Option CCGMediaValue := none
  playTime : Option Int := none
  playing : Option Bool := none
  pauseTime : Option Int := none
  looping : Option Bool := none
  seek : Option Int := none
  inPoint : Option Int := none
  length : Option Int := none
  channelLayout : Option String := none
  templateType : Option String := none
  templateData : Option String := none
  cgStop : Option Bool := none
  input : Option CCGInputProps := none
  route : Option CCGRouteProps := none
  mode : Option String := none
  encoderOptions : Option String := none
  mixer : Option (List (String × JsonPrim)) := none
deriving DecidableEq, Repr

/-- A `StateNS.NextUp`: a state layer used as background, with `auto = false`. -/
structure CCGNextUp where
  auto : Bool
  base : CCGBaseLayer
deriving DecidableEq, Repr

/-- A placed state layer: the foreground fields plus the optional `nextUp` slot. -/
structure CCGStateLayer where
  base : CCGBaseLayer
  nextUp : Option CCGNextUp := none
deriving DecidableEq, Repr

/-- A `StateNS.Channel`. -/
structure CCGChannel where
  channelNo : Int := 1
  fps : Rat := 0
  layers : List (Int × CCGStateLayer) := []
deriving DecidableEq, Repr

/-- A `StateNS.State`. -/
structure CasparState where
  channels : List (Int × CCGChannel) := []
deriving DecidableEq, Repr

/-- The CasparCG timeline content: the union of the fields the projector reads,
discriminated by `type`. -/
structure CasparTLContent where
  type : CCGContentType
  file : String := ""
  loop : Option Bool := none
  seek : Option Int := none
  inPoint : Option Int := none
  length : Option Int := none
  pauseTime : Option Int := none
  playing : Option Bool := none
  noStarttime : Bool := false
  channelLayout : Option String := none
  uri : String := ""
  device : Int := 0
  name : String := ""
  templateType : Option String := none
  data : Option String := none
  useStopCommand : Option Bool := none
  url : String := ""
  mappedLayer : Option String := none
  channel : Option Int := none
  layer : Option Int := none
  mode : Option String := none
  encoderOptions : String := ""
  transitions : Option TLTransitions := none
  mixer : Option (List (String × JsonPrim)) := none
deriving DecidableEq, Repr

/-- `ResolvedTimelineObjectInstanceExtended`: a resolved timeline object with the
lookahead hints (`layer.id`, `layer.instance.start`, `layerExt.isLookahead`,
`layerExt.lookaheadForLayer`). -/
structure CasparTLObject where
  id : String
  start : Int
  content : CasparTLContent
  isLookahead : Bool := false
  lookaheadForLayer : Option String := none
deriving DecidableEq, Repr

structure CasparTimelineState where
  time : Int
  layers : List (String × CasparTLObject)
deriving DecidableEq, Repr

/-- Mapping resolution of the layer loop: `getMapping()[layerName]`, falling back
to `getMapping()[lookaheadForLayer]` when the layer is a lookahead whose own
layer has no mapping. -/
def resolveFoundMapping (mappings : List (String × Mapping)) (layerName : String)
    (layer : CasparTLObject) : Option Mapping :=
  match alookup layerName mappings with
  | some foundMapping => some foundMapping
  | none =>
    if layer.isLookahead ∧ truthyStr layer.lookaheadForLayer then
      alookup (layer.lookaheadForLayer.getD "") mappings
    else
      none

/-- `foundMapping.device === DeviceType.CASPARCG && _.has(foundMapping,'channel')
&& _.has(foundMapping,'layer')`. -/
def isCasparMapping (m : Mapping) : Bool :=
  m.device = DeviceType.casparcg ∧ m.channel.isSome ∧ m.layer.isSome

/-- The content-type switch of the layer loop: builds the state layer for the
mapped slot `mlayer`, or nothing for unknown types (and for `RECORD` without a
start time). -/
def buildContentLayer (mappings : List (String × Mapping)) (mlayer : Int)
    (layer : CasparTLObject) : Option CCGBaseLayer :=
  let c := layer.content
  match c.type with
  | CCGContentType.media =>
    some { layerNo := mlayer
           content := CCGLayerContentType.media
           media := some (CCGMediaValue.plain c.file)
           playTime :=
             if c.noStarttime ∨
                (c.loop.getD false ∧ (truthyInt c.seek).isNone ∧
                 (truthyInt c.inPoint).isNone ∧ (truthyInt c.length).isNone) then
               none
             else if layer.start = 0 then none else some layer.start
           pauseTime := truthyInt c.pauseTime
           playing := some (c.playing.getD true)
           looping := c.loop
           seek := c.seek
           inPoint := c.inPoint
           length := c.length
           channelLayout := c.channelLayout }
  | CCGContentType.ip =>
    some { layerNo := mlayer
           content := CCGLayerContentType.media
           media := some (CCGMediaValue.plain c.uri)
           channelLayout := c.channelLayout
           playTime := none
           playing := some true
           seek := some 0 }
  | CCGContentType.input =>
    some { layerNo := mlayer
           content := CCGLayerContentType.input
           media := some (CCGMediaValue.plain "decklink")
           input := some { device := c.device, channelLayout := c.channelLayout }
           playing := some true
           playTime := none }
  | CCGContentType.template =>
    some { layerNo := mlayer
           content := CCGLayerContentType.template
           media := some (CCGMediaValue.plain c.name)
           playTime := if layer.start = 0 then none else some layer.start
           playing := some true
           templateType := some (match c.templateType with
             | some s => if s ≠ "" then s else "html"
             | none => "html")
           templateData := c.data
           cgStop := c.useStopCommand }
  | CCGContentType.htmlpage =>
    some { layerNo := mlayer
           content := CCGLayerContentType.htmlpage
           media := some (CCGMediaValue.plain c.url)
           playTime := if layer.start = 0 then none else some layer.start
           playing := some true }
  | CCGContentType.route =>
    -- `if (routeObj.content.mappedLayer)`: resolve and overwrite channel/layer
    let effective : Option Int × Option Int :=
      match c.mappedLayer with
      | some mappedLayer =>
        if mappedLayer ≠ "" then
          match alookup mappedLayer mappings with
          | some routeMapping => (routeMapping.channel, routeMapping.layer)
          | none => (c.channel, c.layer)
        else (c.channel, c.layer)
      | none => (c.channel, c.layer)
    some { layerNo := mlayer
           content := CCGLayerContentType.route
           media := some (CCGMediaValue.plain "route")
           route := some { channel := (truthyInt effective.1).getD 0
                           layer := effective.2
                           channelLayout := c.channelLayout }
           mode := match c.mode with
             | some s => if s ≠ "" then some s else none
             | none => none
           playing := some true
           playTime := none }
  | CCGContentType.record =>
    if layer.start ≠ 0 then
      some { layerNo := mlayer
             content := CCGLayerContentType.record
             media := some (CCGMediaValue.plain c.file)
             encoderOptions := some c.encoderOptions
             playing := some true
             playTime := some layer.start }
    else
      none
  | CCGContentType.unknown => none

/-- The empty layer the loop substitutes when no content layer could be built. -/
def emptyCCGLayer (mlayer : Int) : CCGBaseLayer :=
  { layerNo := mlayer
    content := CCGLayerContentType.nothing
    playing := some false
    pauseTime := some 0 }

/-- A `StateNS.Transition` from a timeline transition description. -/
def stateTransitionOf (t : TLTransition) : StateTransition :=
  { transitionType := t.type
    durationOrMask := orIntStr t.duration t.maskFile
    easingOrDelay := orStrInt t.easing t.delay
    directionOrOverlay := orStrStr t.direction t.overlayFile }

/-- The state layer after the content switch, the empty-layer fallback, the
transition wrapping, the mixer copy, and the final `layerNo` assignment. -/
def buildStateLayer (mappings : List (String × Mapping)) (mlayer : Int)
    (layer : CasparTLObject) : CCGBaseLayer :=
  let c := layer.content
  let stateLayer := (buildContentLayer mappings mlayer layer).getD (emptyCCGLayer mlayer)
  let stateLayer :=
    match c.transitions with
    | some transitions =>
      match c.type with
      | CCGContentType.media | CCGContentType.ip | CCGContentType.template
      | CCGContentType.input | CCGContentType.route =>
        let media := match stateLayer.media with
          | some (CCGMediaValue.plain s) => some s
          | some (CCGMediaValue.transitioned b _ _) => b
          | none => none
        { stateLayer with media := some (CCGMediaValue.transitioned media
            (transitions.inTransition.map stateTransitionOf)
            (transitions.outTransition.map stateTransitionOf)) }
      | _ => stateLayer
    | none => stateLayer
  let stateLayer :=
    match c.mixer with
    | some mixer => { stateLayer with mixer := some mixer }
    | none => stateLayer
  { stateLayer with layerNo := mlayer }

/-- The placement block of the layer loop (`channel` fetch/creation and the
foreground/lookahead cases). -/
def placeInState (caspar : CasparState) (mchannel mlayer : Int) (isLookahead : Bool)
    (stateBase : CCGBaseLayer) : CasparState :=
  let channel : CCGChannel :=
    match ilookup mchannel caspar.channels with
    | some channel => channel
    | none => {}
  let channelNo : Int := if mchannel = 0 then 1 else mchannel
  let channel := { channel with channelNo := channelNo, fps := (25 : Rat) / 1000 }
  let layers : List (Int × CCGStateLayer) :=
    if ¬ isLookahead then
      -- foreground: keep a previously placed `nextUp`
      let prevNextUp : Option CCGNextUp :=
        match ilookup mlayer channel.layers with
        | some prev => prev.nextUp
        | none => none
      iset mlayer { base := stateBase, nextUp := prevNextUp } channel.layers
    else
      -- background: become the `nextUp` of the (possibly synthesized) foreground
      let s : CCGNextUp := { auto := false, base := stateBase }
      match ilookup mlayer channel.layers with
      | none =>
        iset mlayer { base := emptyCCGLayer mlayer, nextUp := some s } channel.layers
      | some res =>
        iset mlayer { res with nextUp := some s } channel.layers
  { caspar with channels := iset channelNo { channel with layers := layers } caspar.channels }

/-- One iteration of the layer loop of `convertStateToCaspar`. -/
def processLayer (mappings : List (String × Mapping)) (caspar : CasparState)
    (p : String × CasparTLObject) : CasparState :=
  match resolveFoundMapping mappings p.1 p.2 with
  | some foundMapping =>
    if isCasparMapping foundMapping then
      let mchannel := foundMapping.channel.getD 0
      let mlayer := foundMapping.layer.getD 0
      placeInState caspar mchannel mlayer p.2.isLookahead
        (buildStateLayer mappings mlayer p.2)
    else
      caspar
  | none => caspar

/-- `CasparCGDevice.convertStateToCaspar`. -/
def convertStateToCaspar (mappings : List (String × Mapping))
    (timelineState : CasparTimelineState) : CasparState :=
  timelineState.layers.foldl (processLayer mappings) {}

/-! ## Concrete example inputs (used by counterexamples and witnesses) -/

def exContentPost : HTTPSendCommandContent :=
  { type := .post, url := "http://x", params := some [("a", .num 1)], temporalPriority := some 2 }

def exContentPost2 : HTTPSendCommandContent :=
  { type := .post, url := "http://x", params := some [("a", .num 2)], temporalPriority := some 2 }

def exContentGet : HTTPSendCommandContent :=
  { type := .get, url := "http://y" }

def exHttpOld : HttpTimelineState :=
  { time := 0
    layers := [("L1", { id := "o1", content := exContentPost }),
               ("L3", { id := "o3", content := exContentGet }),
               ("L4", { id := "o4", content := exContentGet })] }

def exHttpNew : HttpTimelineState :=
  { time := 1000
    layers := [("L1", { id := "o1b", content := exContentPost2 }),
               ("L2", { id := "o2", content := exContentGet }),
               ("L4", { id := "o4", content := exContentGet })] }

def exQPort : QuantelStatePort :=
  { timelineObjId := "obj0", clip := none, mode := .quality, channels := [1] }

def exQOld : QuantelState := { time := 200, port := [] }

def exQNew : QuantelState := { time := 100, port := [("p1", exQPort)] }

def exQClip : QuantelStatePortClip :=
  { title := "NEWS", playing := true, playTime := some 10000 }

def exQSelf : QuantelState :=
  { time := 50
    port := [("p1", { timelineObjId := "o2", clip := some exQClip
                      mode := .quality, channels := [1, 2] })] }

/-- A gateway environment in which every call fails. -/
def exFailEnv : GatewayEnv :=
  { now := 1000
    getPort := fun _ => Except.error (strErr "fail")
    releasePort := fun _ => Except.error (strErr "fail")
    createPort := fun _ _ => Except.error (strErr "fail")
    getServer := Except.error (strErr "fail")
    getClip := fun _ => Except.error (strErr "fail")
    searchClip := fun _ => Except.error (strErr "fail")
    getClipFragments := fun _ => Except.error (strErr "fail")
    getClipFragmentsInOut := fun _ _ _ => Except.error (strErr "fail")
    loadFragmentsOntoPort := fun _ _ _ => Except.error (strErr "fail")
    portPrepareJump := fun _ _ => Except.error (strErr "fail")
    portTriggerJump := fun _ => Except.error (strErr "fail")
    portHardJump := fun _ _ => Except.error (strErr "fail")
    portStop := fun _ _ => Except.error (strErr "fail")
    portPlay := fun _ => Except.error (strErr "fail")
    portClear := fun _ => Except.error (strErr "fail") }

def exLoadedFrag : QuantelLoadedFragmentsRecord :=
  { portInPoint := 0, portOutPoint := 100, inPoint := 0, outPoint := 100 }

def exTrackedPort : QuantelTrackedStatePort :=
  { loadedFragments := [(5, exLoadedFrag)], channel := 1, offset := 0
    playing := true, jumpOffset := some 100, scheduledStop := none }

def exManagerState : ManagerState :=
  { tracked := { clipId := [], port := [("p1", exTrackedPort)] }
    cache := { data := [], callCount := 0 } }

def exPauseCmd : QuantelCommandClip :=
  { time := 0, portId := "p1", timelineObjId := "o1"
    clip := { title := "T", clipId := some 5, playing := false, playTime := none }
    mode := .quality }

def exSetupCmd : QuantelCommandSetupPort :=
  { time := 0, portId := "px", timelineObjId := "o", channel := 2 }

/-- A tracked port with no prepared jump, so `prepareClipJump` takes the
QUALITY/SPEED else-branch. -/
def exSpeedTrackedPort : QuantelTrackedStatePort :=
  { loadedFragments := [(5, exLoadedFrag)], channel := 1, offset := 7
    playing := true, jumpOffset := none, scheduledStop := none }

def exSpeedState : ManagerState :=
  { tracked := { clipId := [], port := [("p1", exSpeedTrackedPort)] }
    cache := { data := [], callCount := 0 } }

/-- A pause command in SPEED control mode. -/
def exSpeedCmd : QuantelCommandClip :=
  { time := 0, portId := "p1", timelineObjId := "o1"
    clip := { title := "T", clipId := some 5, playing := false, playTime := none }
    mode := .speed }

def exQuantelOptionsNoZone : QuantelOptions :=
  { gatewayUrl := some "http://gw", ISAUrl := some "http://isa", zoneId := none
    serverId := some 1100 }

def exCasparMapping : Mapping :=
  { device := .casparcg, deviceId := "c0", channel := some 1, layer := some 10 }

def exCasparMappings : List (String × Mapping) := [("M1", exCasparMapping)]

def exLookaheadObj : CasparTLObject :=
  { id := "la0", start := 0, content := { type := .media, file := "AMB" }
    isLookahead := true, lookaheadForLayer := some "M1" }

/-- The state layer the CasparCG projector builds for `exLookaheadObj` at slot 10. -/
def exLookaheadBase : CCGBaseLayer :=
  buildStateLayer exCasparMappings 10 exLookaheadObj

/-! ## Helper lemmas on association lists -/

theorem alookup_eq_some_of_mem {α : Type} {l : List (String × α)} {k : String} {v : α}
    (hnd : (l.map Prod.fst).Nodup) (hm : (k, v) ∈ l) : alookup k l = some v := by
  induction l with
  | nil => cases hm
  | cons p t ih =>
    obtain ⟨k', v'⟩ := p
    simp only [List.map_cons, List.nodup_cons] at hnd
    rcases List.mem_cons.mp hm with h | h
    · cases h
      simp [alookup]
    · have hne : k' ≠ k := by
        intro he
        subst he
        exact hnd.1 (List.mem_map.mpr ⟨(k', v), h, rfl⟩)
      simpa [alookup, hne] using ih hnd.2 h

theorem alookup_eq_none_iff {α : Type} {l : List (String × α)} {k : String} :
    alookup k l = none ↔ k ∉ l.map Prod.fst := by
  induction l with
  | nil => simp [alookup]
  | cons p t ih =>
    obtain ⟨k', v'⟩ := p
    by_cases h : k' = k
    · subst h
      simp [alookup]
    · simp [alookup, h, ih, Ne.symm h]

theorem mem_of_alookup_eq_some {α : Type} {l : List (String × α)} {k : String} {v : α}
    (h : alookup k l = some v) : (k, v) ∈ l := by
  induction l with
  | nil => simp [alookup] at h
  | cons p t ih =>
    obtain ⟨k', v'⟩ := p
    by_cases hk : k' = k
    · subst hk
      simp [alookup] at h
      subst h
      exact List.mem_cons_self _ _
    · simp [alookup, hk] at h
      exact List.mem_cons_of_mem _ (ih h)

theorem alookup_adel_self {α : Type} (k : String) (l : List (String × α)) :
    alookup k (adel k l) = none := by
  induction l with
  | nil => rfl
  | cons p t ih =>
    obtain ⟨k', v'⟩ := p
    by_cases h : k' = k
    · subst h
      simpa [adel, List.filter_cons] using ih
    · simpa [adel, List.filter_cons, h, alookup] using ih

theorem ilookup_iset_self {α : Type} (k : Int) (v : α) (l : List (Int × α)) :
    ilookup k (iset k v l) = some v := by
  induction l with
  | nil => simp [iset, ilookup]
  | cons p t ih =>
    obtain ⟨k', v'⟩ := p
    by_cases h : k' = k
    · subst h
      simp [iset, ilookup]
    · simp [iset, ilookup, h, ih]

/-! ## C9 — Quantel `init` option validation -/

/-- C9 (counterexample): `QuantelDevice.init` does **not** validate `zoneId`:
with `gatewayUrl`, `ISAUrl` and `serverId` present but `zoneId` missing, the
validation passes and gateway initialization proceeds (with `zoneId` undefined),
contradicting the claim that init fails whenever any of the four is missing. -/
theorem quantel_init_zoneId_counterexample :
    exQuantelOptionsNoZone.zoneId = none ∧
    quantelInit exQuantelOptionsNoZone =
      Except.ok ("http://gw", "http://isa", none, 1100) := by
  exact ⟨rfl, rfl⟩

/-- C9 (amended): `QuantelDevice.init` proceeds to gateway initialization exactly
when `gatewayUrl`, `ISAUrl` and `serverId` are all truthy, and fails otherwise;
`zoneId` is passed through unvalidated. -/
theorem quantel_init_validation :
    (∀ options : QuantelOptions,
       truthyStr options.gatewayUrl = true → truthyStr options.ISAUrl = true →
       (truthyInt options.serverId).isSome = true →
       quantelInit options = Except.ok
         (options.gatewayUrl.getD "", options.ISAUrl.getD "", options.zoneId,
          options.serverId.getD 0)) ∧
    (∀ options : QuantelOptions,
       ¬(truthyStr options.gatewayUrl = true ∧ truthyStr options.ISAUrl = true ∧
         (truthyInt options.serverId).isSome = true) →
       ∃ e, quantelInit options = Except.error e) := by
  constructor
  · intro o h1 h2 h3
    obtain ⟨v, hv⟩ := Option.isSome_iff_exists.mp h3
    simp [quantelInit, h1, h2, hv]
  · intro o h
    by_cases h1 : truthyStr o.gatewayUrl = true
    · by_cases h2 : truthyStr o.ISAUrl = true
      · by_cases h3 : (truthyInt o.serverId).isSome = true
        · exact absurd ⟨h1, h2, h3⟩ h
        · cases hs : truthyInt o.serverId with
          | none =>
            exact ⟨"Quantel bad connection option: serverId",
              by simp [quantelInit, h1, h2, hs]⟩
          | some v => exact absurd (by simp [hs]) h3
      · exact ⟨"Quantel bad connection option: ISAUrl", by simp [quantelInit, h1, h2]⟩
    · exact ⟨"Quantel bad connection option: gatewayUrl", by simp [quantelInit, h1]⟩

/-- C9 (witness): the amended theorem applied to a fully-truthy option set and to
an option set with an empty `ISAUrl`. -/
theorem quantel_init_validation_witness :
    quantelInit { gatewayUrl := some "g", ISAUrl := some "i", zoneId := some "z", serverId := some 2 } =
      Except.ok (Option.getD (some "g") "", Option.getD (some "i") "", some "z", Option.getD (some (2:Int)) 0) ∧
    ∃ e, quantelInit { gatewayUrl := some "g", ISAUrl := some "", serverId := some 2 } = Except.error e :=
  ⟨quantel_init_validation.1 _ (by decide) (by decide) (by decide),
   quantel_init_validation.2 _ (by decide)⟩

/-! ## C10 — removed commands never reach the command receiver -/

/-- C10: for a `removed` command, the queued callback of `_addToQueue` deletes the
layer's `activeLayers` fingerprint and returns null without invoking the command
receiver; after the callback the layer has no fingerprint. -/
theorem http_removed_callback_spec :
    ∀ (activeLayers : List (String × String)) (cmd : HttpCommand),
      cmd.commandName = CommandName.removed →
      (addToQueueCallback activeLayers cmd).2 = none ∧
      (addToQueueCallback activeLayers cmd).1 = adel cmd.layer activeLayers ∧
      alookup cmd.layer (addToQueueCallback activeLayers cmd).1 = none := by
  intro al cmd h
  have hnot : ¬(cmd.commandName = CommandName.added ∨ cmd.commandName = CommandName.changed) := by
    simp [h]
  simp [addToQueueCallback, hnot, alookup_adel_self]

/-- C10 (witness). -/
theorem http_removed_callback_spec_witness :
    (addToQueueCallback [("L3", "x")] (removedCommand "L3" { id := "o3", content := exContentGet })).2 = none ∧
    (addToQueueCallback [("L3", "x")] (removedCommand "L3" { id := "o3", content := exContentGet })).1 =
      adel "L3" [("L3", "x")] ∧
    alookup "L3" (addToQueueCallback [("L3", "x")] (removedCommand "L3" { id := "o3", content := exContentGet })).1 = none :=
  http_removed_callback_spec [("L3", "x")] (removedCommand "L3" { id := "o3", content := exContentGet }) (by decide)

/-! ## C6 — the relevance check of `_defaultCommandReceiver` -/

/-- C6 (counterexample): when the payload **equals** the stored fingerprint the
receiver proceeds with the send, and when it **differs** the send is dropped —
the opposite of the claim that an unchanged payload is dropped. -/
theorem http_relevance_check_counterexample :
    receiverSends [("L", stringifyContent exContentGet)] (some "L") exContentGet = true ∧
    receiverSends [("L", stringifyContent exContentPost)] (some "L") exContentGet = false := by
  constructor <;> decide

/-- C6 (amended): for a truthy layer, the receiver issues the request iff the
payload's `JSON.stringify` equals the layer's stored fingerprint (i.e. the
command is still the latest for that layer); otherwise it returns without
sending. -/
theorem http_relevance_check_spec :
    ∀ (activeLayers : List (String × String)) (l : String) (cmd : HTTPSendCommandContent),
      l ≠ "" →
      (receiverSends activeLayers (some l) cmd = true ↔
        alookup l activeLayers = some (stringifyContent cmd)) := by
  intro al l cmd hl
  have hstep : receiverSends al (some l) cmd =
      (match alookup l al with
       | some hash => decide (stringifyContent cmd = hash)
       | none => false) := by
    simp [receiverSends, hl]
  rw [hstep]
  cases h : alookup l al with
  | none => simp
  | some hash =>
    simp only [decide_eq_true_eq, Option.some.injEq]
    exact ⟨fun he => he ▸ rfl, fun he => he.symm⟩

/-- C6 (witness). -/
theorem http_relevance_check_spec_witness :
    "L" ≠ "" ∧
    (receiverSends [("L", stringifyContent exContentGet)] (some "L") exContentGet = true ↔
      alookup "L" [("L", stringifyContent exContentGet)] = some (stringifyContent exContentGet)) :=
  ⟨by decide, http_relevance_check_spec [("L", stringifyContent exContentGet)] "L" exContentGet (by decide)⟩

/-! ## C5 — retry behaviour of `_defaultCommandReceiver` -/

/-- C5 (counterexample): with `resendTime = 500` and every attempt failing with
`ECONNRESET`, attempt 2 — the retry triggered by the **failure of the first
retry** — occurs, refuting "a failure of the retry does not trigger a further
retry (no unbounded recursion)": the receiver re-invokes itself on every
retryable failure. -/
theorem http_retry_unbounded_counterexample :
    attemptOccurs (initResendTime (some 500))
      (fun _ => HttpAttemptOutcome.err { hasCodeField := true, code := "ECONNRESET" })
      2 = true := by
  decide

/-- C5 (amended): a failure schedules a retry iff the error carries a code in the
retry set and init was given `resendTime > 1`; the retry waits
`max(resendTime − elapsed, 0)`; and **every** retryable failure schedules a
further attempt, so attempts recur unboundedly while retryable failures persist. -/
theorem http_retry_conditions :
    (∀ (r : Option Int) (e : HttpRequestError) (elapsed : Int),
       (retryAfterFailure (initResendTime r) e elapsed).isSome = true ↔
         (e.hasCodeField = true ∧ e.code ∈ retryCodes ∧ ∃ v, r = some v ∧ 1 < v)) ∧
    (∀ (v : Int) (e : HttpRequestError) (elapsed : Int),
       1 < v → e.hasCodeField = true → e.code ∈ retryCodes →
       retryAfterFailure (initResendTime (some v)) e elapsed = some (max (v - elapsed) 0)) ∧
    (∀ (r : Option Int) (outcomes : Nat → HttpAttemptOutcome),
       (∀ n, schedulesRetry r (outcomes n) = true) →
       ∀ n, attemptOccurs r outcomes n = true) := by
  refine ⟨?_, ?_, ?_⟩
  · intro r e elapsed
    cases r with
    | none =>
      simp [retryAfterFailure, initResendTime]
    | some v =>
      by_cases hc : e.hasCodeField = true ∧ e.code ∈ retryCodes
      · by_cases hv : v ≠ 0 ∧ v > 1
        · simp [retryAfterFailure, initResendTime, hc, hv]
        · simp [retryAfterFailure, initResendTime, hc, hv]
          omega
      · simp [retryAfterFailure, initResendTime, hc]
        tauto
  · intro v e elapsed hv h1 h2
    have hv' : v ≠ 0 ∧ v > 1 := by omega
    simp [retryAfterFailure, initResendTime, h1, h2, hv']
  · intro r outcomes h n
    induction n with
    | zero => rfl
    | succ m ih => simp [attemptOccurs, ih, h m]

/-- C5 (witness): the amended theorem applied to `resendTime = 500`,
`ECONNRESET`, elapsed 200 ms (one retry after 300 ms) and to an all-failing
outcome stream (attempt 3 still occurs). -/
theorem http_retry_conditions_witness :
    retryAfterFailure (initResendTime (some 500))
      { hasCodeField := true, code := "ECONNRESET" } 200 = some (max (500 - 200) 0) ∧
    attemptOccurs (initResendTime (some 500))
      (fun _ => HttpAttemptOutcome.err { hasCodeField := true, code := "ECONNRESET" })
      3 = true :=
  ⟨http_retry_conditions.2.1 500 { hasCodeField := true, code := "ECONNRESET" } 200
      (by decide) (by decide) (by decide),
   http_retry_conditions.2.2 (initResendTime (some 500))
      (fun _ => HttpAttemptOutcome.err { hasCodeField := true, code := "ECONNRESET" })
      (fun _ => rfl) 3⟩

/-! ## C2 — Quantel prepare-ahead command times -/

/-- C2 (counterexample): diffing at transition time 100 against an old state at
time 200 emits a prepare command (`SETUPPORT`) at time 100, not at
`max(oldState.time + PREPARE_WAIT, t − IDEAL_PREPARE) = 250`: the code clamps the
prepare time with `Math.min(time, …)`, which the claim omits, and consequently
the prepare time here is **below** the old state's time. -/
theorem quantel_prepareTime_counterexample :
    (quantelDiffStates exQOld exQNew 100).head? =
      some (QuantelCommand.setupPort
        { time := 100, portId := "p1", timelineObjId := "obj0", channel := 1 }) ∧
    (QuantelCommand.setupPort
        { time := 100, portId := "p1", timelineObjId := "obj0", channel := 1 }).isPrepareCommand = true ∧
    (100 : Int) ≠ max (exQOld.time + PREPARE_TIME_WAIT) (100 - IDEAL_PREPARE_TIME) ∧
    (100 : Int) < exQOld.time := by
  refine ⟨by decide, by decide, by decide, by decide⟩

/-- Every command in the `SETUPPORT` block is a prepare command at `prepareTime`. -/
theorem time_of_mem_quantelDiffSetup {oldState : QuantelState} {prepareTime : Int}
    {portId : String} {newPort : QuantelStatePort} {c : QuantelCommand}
    (h : c ∈ quantelDiffSetupCommands oldState prepareTime portId newPort) :
    c.isPrepareCommand = true ∧ c.time = prepareTime := by
  unfold quantelDiffSetupCommands at h
  split at h
  · split at h
    · split at h
      · simp only [List.mem_singleton] at h
        subst h
        exact ⟨rfl, rfl⟩
      · simp at h
    · simp at h
  · simp at h

/-- Every command in the clip block is either the `LOADCLIPFRAGMENTS` prepare
command at `prepareTime` or a transition command at `time`. -/
theorem time_of_mem_quantelDiffClip {oldState : QuantelState} {prepareTime time : Int}
    {portId : String} {newPort : QuantelStatePort} {c : QuantelCommand}
    (h : c ∈ quantelDiffClipCommands oldState prepareTime time portId newPort) :
    (c.isPrepareCommand = true ∧ c.time = prepareTime) ∨
    (c.isPrepareCommand = false ∧ c.time = time) := by
  unfold quantelDiffClipCommands at h
  split at h
  · split at h
    · rcases List.mem_cons.mp h with h1 | h1
      · subst h1
        exact Or.inl ⟨rfl, rfl⟩
      · split at h1 <;>
          (simp only [List.mem_singleton] at h1; subst h1; exact Or.inr ⟨rfl, rfl⟩)
    · simp only [List.mem_singleton] at h
      subst h
      exact Or.inr ⟨rfl, rfl⟩
  · simp at h

/-- Every removed-port command is a `RELEASEPORT` prepare command at `prepareTime`. -/
theorem time_of_mem_quantelDiffRemoved {oldState newState : QuantelState}
    {prepareTime : Int} {c : QuantelCommand}
    (h : c ∈ quantelDiffRemovedCommands oldState newState prepareTime) :
    c.isPrepareCommand = true ∧ c.time = prepareTime := by
  unfold quantelDiffRemovedCommands at h
  simp only [List.mem_filterMap] at h
  obtain ⟨p, hp, hfp⟩ := h
  split at hfp
  · simp at hfp
  · simp only [Option.some.injEq] at hfp
    subst hfp
    exact ⟨rfl, rfl⟩

/-- C2 (amended): every prepare-ahead command (`SETUPPORT`, `LOADCLIPFRAGMENTS`,
`RELEASEPORT`) carries `time = min(t, max(t − IDEAL_PREPARE, t₀ + PREPARE_WAIT))`
— the claim's `max(t₀ + PREPARE_WAIT, t − IDEAL_PREPARE)` clamped to the
transition time, which the claim omitted; every `PLAYCLIP`/`PAUSECLIP`/`CLEARCLIP`
carries `time = t`; every command satisfies `time ≤ t`; and the prepare time is
`≥ t₀` **provided** `t₀ + PREPARE_WAIT ≤ t` (without that proviso the
counterexample shows the prepare time can precede the old state's time). -/
theorem quantel_diffStates_times :
    ∀ (oldState newState : QuantelState) (time : Int) (c : QuantelCommand),
      c ∈ quantelDiffStates oldState newState time →
      (c.isPrepareCommand = true →
        c.time = min time (max (time - IDEAL_PREPARE_TIME) (oldState.time + PREPARE_TIME_WAIT))) ∧
      (c.isPrepareCommand = false → c.time = time) ∧
      c.time ≤ time ∧
      (oldState.time + PREPARE_TIME_WAIT ≤ time → oldState.time ≤ c.time) := by
  intro old new t c hc
  have hw : PREPARE_TIME_WAIT = 50 := rfl
  have hshape :
      (c.isPrepareCommand = true ∧
        c.time = min t (max (t - IDEAL_PREPARE_TIME) (old.time + PREPARE_TIME_WAIT))) ∨
      (c.isPrepareCommand = false ∧ c.time = t) := by
    simp only [quantelDiffStates, List.mem_append, List.mem_flatMap] at hc
    rcases hc with ⟨p, hp, hmem⟩ | hmem
    · rcases hmem with h1 | h1
      · exact Or.inl (time_of_mem_quantelDiffSetup h1)
      · exact time_of_mem_quantelDiffClip h1
    · exact Or.inl (time_of_mem_quantelDiffRemoved hmem)
  set P := min t (max (t - IDEAL_PREPARE_TIME) (old.time + PREPARE_TIME_WAIT)) with hP
  have hPle : P ≤ t := min_le_left _ _
  have hPge : old.time + PREPARE_TIME_WAIT ≤ t → old.time ≤ P := by
    intro h
    refine le_min (by omega) ?_
    calc old.time ≤ old.time + PREPARE_TIME_WAIT := by omega
      _ ≤ max (t - IDEAL_PREPARE_TIME) (old.time + PREPARE_TIME_WAIT) := le_max_right _ _
  rcases hshape with ⟨h1, h2⟩ | ⟨h1, h2⟩
  · refine ⟨fun _ => h2, fun hf => absurd h1 (by simp [hf]), ?_, fun hle => ?_⟩
    · rw [h2]; exact hPle
    · rw [h2]; exact hPge hle
  · refine ⟨fun ht => absurd h1 (by simp [ht]), fun _ => h2, le_of_eq h2, fun hle => ?_⟩
    rw [h2]; omega

/-- C2 (witness): the setup command of the counterexample states is in the diff,
and the amended theorem yields its time bound. -/
theorem quantel_diffStates_times_witness :
    (QuantelCommand.setupPort
      { time := 100, portId := "p1", timelineObjId := "obj0", channel := 1 }) ∈
        quantelDiffStates exQOld exQNew 100 ∧
    (QuantelCommand.setupPort
      { time := 100, portId := "p1", timelineObjId := "obj0", channel := 1 }).time ≤ 100 :=
  ⟨by decide,
   (quantel_diffStates_times exQOld exQNew 100
      (QuantelCommand.setupPort
        { time := 100, portId := "p1", timelineObjId := "obj0", channel := 1 })
      (by decide)).2.2.1⟩

/-! ## C4 — diffing a state against itself is empty -/

/-- C4: for both the HTTP device and the Quantel device, diffing a state (with
unique layer/port keys, as JS objects guarantee) against itself produces no
commands. -/
theorem diff_self_is_empty :
    (∀ s : HttpTimelineState, (s.layers.map Prod.fst).Nodup → httpDiffStates s s = []) ∧
    (∀ (q : QuantelState) (t : Int), (q.port.map Prod.fst).Nodup →
      quantelDiffStates q q t = []) := by
  constructor
  · intro s hnd
    have hA : httpDiffAddedChanged s s = [] := by
      rw [httpDiffAddedChanged, List.filterMap_eq_nil_iff]
      intro p hp
      rw [alookup_eq_some_of_mem hnd (by simpa using hp)]
      simp
    have hR : httpDiffRemoved s s = [] := by
      rw [httpDiffRemoved, List.filterMap_eq_nil_iff]
      intro p hp
      rw [alookup_eq_some_of_mem hnd (by simpa using hp)]
    rw [httpDiffStates, hA, hR]
    simp
  · intro q t hnd
    simp only [quantelDiffStates]
    rw [List.append_eq_nil]
    constructor
    · rw [List.flatMap_eq_nil_iff]
      intro p hp
      have hl : alookup p.1 q.port = some p.2 :=
        alookup_eq_some_of_mem hnd (by simpa using hp)
      simp [quantelDiffSetupCommands, quantelDiffClipCommands, hl]
    · rw [quantelDiffRemovedCommands, List.filterMap_eq_nil_iff]
      intro p hp
      rw [alookup_eq_some_of_mem hnd (by simpa using hp)]

/-- C4 (witness). -/
theorem diff_self_is_empty_witness :
    httpDiffStates exHttpOld exHttpOld = [] ∧
    quantelDiffStates exQSelf exQSelf 1234 = [] :=
  ⟨diff_self_is_empty.1 exHttpOld (by decide),
   diff_self_is_empty.2 exQSelf 1234 (by decide)⟩

/-! ## C7 — projectors and the mapping table -/

theorem exceptBind_ok {ε α β : Type} (a : α) (f : α → Except ε β) :
    (Except.ok a >>= f) = f a := rfl

theorem exceptBind_error {ε α β : Type} (e : ε) (f : α → Except ε β) :
    ((Except.error e : Except ε α) >>= f) = Except.error e := rfl

/-- Folding a fallible step over a filtered list equals folding over the whole
list when the step is the identity on filtered-out elements. -/
theorem foldlM_filter_of_skip {α β : Type} (f : β → α → Except String β) (p : α → Bool)
    (hskip : ∀ b a, p a = false → f b a = Except.ok b) :
    ∀ (l : List α) (acc : β), (l.filter p).foldlM f acc = l.foldlM f acc := by
  intro l
  induction l with
  | nil => intro acc; rfl
  | cons a t ih =>
    intro acc
    by_cases hpa : p a = true
    · rw [List.filter_cons_of_pos hpa]
      simp only [List.foldlM_cons]
      cases hfa : f acc a with
      | ok b => rw [exceptBind_ok, exceptBind_ok, ih]
      | error e => rw [exceptBind_error, exceptBind_error]
    · rw [List.filter_cons_of_neg (by simpa using hpa)]
      rw [List.foldlM_cons, hskip acc a (by simpa using hpa), exceptBind_ok]
      exact ih acc

/-- C7 (counterexample): the HTTP device's projector is the identity on the
timeline state — it includes every layer even when the mapping table is empty,
so a layer with no matching mapping is **not** ignored by that device. -/
theorem http_projector_identity_counterexample :
    convertStateToHttpSend exHttpNew = exHttpNew ∧
    alookup "L2" ([] : List (String × Mapping)) = none ∧
    alookup "L2" (convertStateToHttpSend exHttpNew).layers =
      some { id := "o2", content := exContentGet } := by
  refine ⟨rfl, rfl, by decide⟩

/-- C7 (amended): the Quantel projector ignores every layer without a matching
Quantel mapping (dropping all such layers leaves its output unchanged), whereas
the HTTP projector returns the timeline state unchanged — it includes every
layer regardless of the mapping table. -/
theorem projector_mapping_filter_spec :
    (∀ (mappings : List (String × Mapping)) (tl : QuantelTimelineState),
       convertStateToQuantel mappings
         { time := tl.time
           layers := tl.layers.filter (fun p =>
             match alookup p.1 mappings with
             | some m => isQuantelMapping m
             | none => false) } =
       convertStateToQuantel mappings tl) ∧
    (∀ s : HttpTimelineState, convertStateToHttpSend s = s) := by
  constructor
  · intro mappings tl
    simp only [convertStateToQuantel]
    rw [foldlM_filter_of_skip _ _ ?hskip]
    case hskip =>
      intro b p hp
      cases halt : alookup p.1 mappings with
      | none => simp [halt]
      | some m =>
        rw [halt] at hp
        simp only at hp
        simp [halt, hp]
  · intro s
    rfl

/-! ## C3 — tracked state vs. protocol failures -/

theorem QM_bind_apply {α β : Type} (m : QM α) (f : α → QM β) (s : ManagerState) :
    (m >>= f) s = match m s with
      | (Except.ok a, s') => f a s'
      | (Except.error e, s') => (Except.error e, s') := rfl

theorem QM_pure_apply {α : Type} (a : α) (s : ManagerState) :
    (pure a : QM α) s = (Except.ok a, s) := rfl

/-- C3 (counterexample): both halves of the claim fail. (i) `pauseClip` on a
port with a stale prepared jump first invalidates `jumpOffset` (a tracked-state
write **before** any protocol call); when the subsequent `portPrepareJump`
rejects, the operation fails with the tracked state already changed — not
"exactly as it was before the operation started". (ii) In SPEED control mode,
`prepareClipJump` issues `portHardJump` **without awaiting it** and immediately
writes `trackedPort.offset` and `trackedPort.playing`: against a gateway whose
`portHardJump` fails, the operation still succeeds and the writes persist, so a
write happened without its protocol call having completed successfully. -/
theorem quantel_pauseClip_partial_write_counterexample :
    ((QuantelManager.pauseClip exFailEnv exPauseCmd exManagerState).1 =
      Except.error (strErr "fail") ∧
    (QuantelManager.pauseClip exFailEnv exPauseCmd exManagerState).2 ≠ exManagerState ∧
    (QuantelManager.pauseClip exFailEnv exPauseCmd exManagerState).2 =
      { exManagerState with tracked :=
        { exManagerState.tracked with
          port := [("p1", { exTrackedPort with jumpOffset := none })] } }) ∧
    (exFailEnv.portHardJump "p1" 0 = Except.error (strErr "fail") ∧
    (QuantelManager.pauseClip exFailEnv exSpeedCmd exSpeedState).1 = Except.ok () ∧
    (QuantelManager.pauseClip exFailEnv exSpeedCmd exSpeedState).2 =
      { exSpeedState with tracked :=
        { exSpeedState.tracked with
          port := [("p1", { exSpeedTrackedPort with offset := 0, playing := false })] } }) := by
  refine ⟨⟨rfl, by decide, by decide⟩, rfl, rfl, by decide⟩

/-- C3 (amended, part of): `setupPort` performs no tracked-state write before its
protocol calls succeed: when it fails, the tracked state is exactly as before. -/
theorem setupPort_error_keeps_state
    {env : GatewayEnv} {cmd : QuantelCommandSetupPort} {s : ManagerState}
    {e : GErr} {s' : ManagerState}
    (h : QuantelManager.setupPort env cmd s = (Except.error e, s')) : s' = s := by
  unfold QuantelManager.setupPort at h
  simp only [QM_bind_apply, getQ, liftG, QM_pure_apply, modifyQ] at h
  split at h
  · cases hgp : env.getPort cmd.portId with
    | error e1 =>
      rw [hgp] at h
      simp only [QM_bind_apply, liftG, QM_pure_apply, modifyQ, Prod.mk.injEq] at h
      exact h.2.symm
    | ok port =>
      rw [hgp] at h
      simp only [QM_bind_apply, liftG, QM_pure_apply, modifyQ] at h
      cases port with
      | none =>
        simp only [Option.isSome_none, Bool.false_eq_true, if_false] at h
        cases hcp : env.createPort cmd.portId cmd.channel with
        | error e2 =>
          rw [hcp] at h
          simp only [QM_bind_apply, liftG, QM_pure_apply, modifyQ, Prod.mk.injEq] at h
          exact h.2.symm
        | ok u =>
          rw [hcp] at h
          simp only [QM_bind_apply, liftG, QM_pure_apply, modifyQ, Prod.mk.injEq] at h
          exact absurd h.1 (by simp)
      | some ps =>
        simp only [Option.isSome_some, if_true] at h
        cases hrp : env.releasePort cmd.portId with
        | error e1 =>
          rw [hrp] at h
          simp only [QM_bind_apply, liftG, QM_pure_apply, modifyQ, Prod.mk.injEq] at h
          exact h.2.symm
        | ok u =>
          rw [hrp] at h
          simp only [QM_bind_apply, liftG, QM_pure_apply, modifyQ] at h
          cases hcp : env.createPort cmd.portId cmd.channel with
          | error e2 =>
            rw [hcp] at h
            simp only [QM_bind_apply, liftG, QM_pure_apply, modifyQ, Prod.mk.injEq] at h
            exact h.2.symm
          | ok u2 =>
            rw [hcp] at h
            simp only [QM_bind_apply, liftG, QM_pure_apply, modifyQ, Prod.mk.injEq] at h
            exact absurd h.1 (by simp)
  · simp only [QM_pure_apply, Prod.mk.injEq] at h
    exact h.2.symm

/-- Applying `getTrackedPortQ` returns the looked-up port (or throws) and leaves
the state unchanged. -/
theorem getTrackedPortQ_apply (portId : String) (s : ManagerState) :
    getTrackedPortQ portId s =
      ((match alookup portId s.tracked.port with
        | some tp => Except.ok tp
        | none =>
          Except.error (strErr ("Port " ++ portId ++ " missing in tracked quantel state"))), s) := by
  unfold getTrackedPortQ
  simp only [QM_bind_apply, getQ]
  cases alookup portId s.tracked.port <;> rfl

/-- C3 (amended, part of): `releasePort` drops the tracked entry only after the
gateway call settled acceptably (ok or 404): on failure, the state is unchanged. -/
theorem releasePort_error_keeps_state
    {env : GatewayEnv} {cmd : QuantelCommandReleasePort} {s : ManagerState}
    {e : GErr} {s' : ManagerState}
    (h : QuantelManager.releasePort env cmd s = (Except.error e, s')) : s' = s := by
  unfold QuantelManager.releasePort at h
  simp only [QM_bind_apply, QM_pure_apply, modifyQ] at h
  cases hrp : env.releasePort cmd.portId with
  | ok u =>
    rw [hrp] at h
    simp only [QM_pure_apply, Prod.mk.injEq] at h
    exact absurd h.1 (by simp)
  | error e1 =>
    rw [hrp] at h
    simp only at h
    by_cases h404 : e1.status = some 404
    · rw [if_pos h404] at h
      simp only [QM_pure_apply, Prod.mk.injEq] at h
      exact absurd h.1 (by simp)
    · rw [if_neg h404] at h
      simp only [throwQ, Prod.mk.injEq] at h
      exact h.2.symm

/-- C3 (amended, part of): `clearClip` resets the tracked port only after
`portClear` succeeded: on failure, the state is unchanged. -/
theorem clearClip_error_keeps_state
    {env : GatewayEnv} {cmd : QuantelCommandClearClip} {s : ManagerState}
    {e : GErr} {s' : ManagerState}
    (h : QuantelManager.clearClip env cmd s = (Except.error e, s')) : s' = s := by
  unfold QuantelManager.clearClip at h
  simp only [QM_bind_apply, getTrackedPortQ_apply] at h
  split at h
  next a s2 heq =>
    have hs2 : s2 = s := (congrArg Prod.snd heq).symm
    subst hs2
    simp only [liftG] at h
    cases hpc : env.portClear cmd.portId with
    | error e1 =>
      rw [hpc] at h
      simp only [Prod.mk.injEq] at h
      exact h.2.symm
    | ok u =>
      rw [hpc] at h
      simp only [modifyPortQ, modifyQ, Prod.mk.injEq] at h
      exact absurd h.1 (by simp)
  next e2 s2 heq =>
    have hs2 : s2 = s := (congrArg Prod.snd heq).symm
    subst hs2
    simp only [Prod.mk.injEq] at h
    exact h.2.symm

/-- C3 (amended): for the single-write executor operations — `setupPort`,
`releasePort`, `clearClip` — every tracked-state write happens only after the
operation's protocol calls have completed successfully (for `releasePort`, a 404
counts as success), and if a protocol call fails the tracked state is exactly
as it was before the operation started. The multi-step operations
(`loadClipFragments`, `playClip`, `pauseClip`) give no such guarantee: the
counterexample shows `pauseClip` invalidating `jumpOffset` by a pure write
before any protocol call (so a later failure does not restore the starting
state), and, in SPEED mode, writing `offset`/`playing` after an un-awaited
`portHardJump` irrespective of that call's outcome. -/
theorem quantel_tracked_atomic_ops :
    (∀ (env : GatewayEnv) (cmd : QuantelCommandSetupPort) (s : ManagerState)
       (e : GErr) (s' : ManagerState),
       QuantelManager.setupPort env cmd s = (Except.error e, s') → s' = s) ∧
    (∀ (env : GatewayEnv) (cmd : QuantelCommandReleasePort) (s : ManagerState)
       (e : GErr) (s' : ManagerState),
       QuantelManager.releasePort env cmd s = (Except.error e, s') → s' = s) ∧
    (∀ (env : GatewayEnv) (cmd : QuantelCommandClearClip) (s : ManagerState)
       (e : GErr) (s' : ManagerState),
       QuantelManager.clearClip env cmd s = (Except.error e, s') → s' = s) :=
  ⟨fun _ _ _ _ _ h => setupPort_error_keeps_state h,
   fun _ _ _ _ _ h => releasePort_error_keeps_state h,
   fun _ _ _ _ _ h => clearClip_error_keeps_state h⟩

/-- C3 (witness): each of the three operations run against the all-failing
gateway leaves the tracked state untouched. -/
theorem quantel_tracked_atomic_ops_witness :
    (QuantelManager.setupPort exFailEnv exSetupCmd exManagerState).2 = exManagerState ∧
    (QuantelManager.releasePort exFailEnv
      { time := 0, portId := "p1", timelineObjId := "o" } exManagerState).2 = exManagerState ∧
    (QuantelManager.clearClip exFailEnv
      { time := 0, portId := "p1", timelineObjId := "o" } exManagerState).2 = exManagerState :=
  ⟨quantel_tracked_atomic_ops.1 exFailEnv exSetupCmd exManagerState (strErr "fail") _ rfl,
   quantel_tracked_atomic_ops.2.1 exFailEnv
     { time := 0, portId := "p1", timelineObjId := "o" } exManagerState (strErr "fail") _ rfl,
   quantel_tracked_atomic_ops.2.2 exFailEnv
     { time := 0, portId := "p1", timelineObjId := "o" } exManagerState (strErr "fail") _ rfl⟩

/-! ## C8 — CasparCG lookahead layers -/

/-- C8: (1) for a lookahead layer whose own layer name has no mapping, the
projector resolves the mapping via `lookaheadForLayer`; (2) placing a lookahead
layer when a foreground layer exists at the mapped channel/layer sets only its
`nextUp` slot (with `auto = false`), leaving the foreground layer itself
untouched; (3) when no foreground layer exists there, an empty foreground layer
is synthesized carrying the lookahead as `nextUp`; (4) the synthesized layer has
content `NOTHING` and `playing = false`. -/
theorem caspar_lookahead_spec :
    (∀ (mappings : List (String × Mapping)) (layerName : String) (layer : CasparTLObject),
       alookup layerName mappings = none → layer.isLookahead = true →
       truthyStr layer.lookaheadForLayer = true →
       resolveFoundMapping mappings layerName layer =
         alookup (layer.lookaheadForLayer.getD "") mappings) ∧
    (∀ (caspar : CasparState) (mchannel mlayer : Int) (stateBase : CCGBaseLayer)
       (channel : CCGChannel) (fg : CCGStateLayer),
       ilookup mchannel caspar.channels = some channel →
       ilookup mlayer channel.layers = some fg →
       ∃ channel', ilookup (if mchannel = 0 then 1 else mchannel)
           (placeInState caspar mchannel mlayer true stateBase).channels = some channel' ∧
         ilookup mlayer channel'.layers =
           some { fg with nextUp := some { auto := false, base := stateBase } }) ∧
    (∀ (caspar : CasparState) (mchannel mlayer : Int) (stateBase : CCGBaseLayer),
       (match ilookup mchannel caspar.channels with
        | some channel => ilookup mlayer channel.layers = none
        | none => True) →
       ∃ channel', ilookup (if mchannel = 0 then 1 else mchannel)
           (placeInState caspar mchannel mlayer true stateBase).channels = some channel' ∧
         ilookup mlayer channel'.layers =
           some { base := emptyCCGLayer mlayer
                  nextUp := some { auto := false, base := stateBase } }) ∧
    (∀ mlayer : Int, (emptyCCGLayer mlayer).content = CCGLayerContentType.nothing ∧
       (emptyCCGLayer mlayer).playing = some false) := by
  refine ⟨?_, ?_, ?_, ?_⟩
  · intro mappings layerName layer h1 h2 h3
    unfold resolveFoundMapping
    rw [h1]
    simp [h2, h3]
  · intro caspar mc ml sb ch fg hch hfg
    refine ⟨{ channelNo := if mc = 0 then 1 else mc, fps := (25 : Rat) / 1000
              layers := iset ml { fg with nextUp := some { auto := false, base := sb } } ch.layers },
            ?_, ?_⟩
    · simp only [placeInState, hch, hfg]
      simpa using ilookup_iset_self _ _ _
    · exact ilookup_iset_self _ _ _
  · intro caspar mc ml sb hcond
    cases hch : ilookup mc caspar.channels with
    | none =>
      refine ⟨{ channelNo := if mc = 0 then 1 else mc, fps := (25 : Rat) / 1000
                layers := iset ml { base := emptyCCGLayer ml
                                    nextUp := some { auto := false, base := sb } } [] },
              ?_, ?_⟩
      · simp only [placeInState, hch]
        simpa using ilookup_iset_self _ _ _
      · exact ilookup_iset_self _ _ _
    | some ch =>
      rw [hch] at hcond
      refine ⟨{ channelNo := if mc = 0 then 1 else mc, fps := (25 : Rat) / 1000
                layers := iset ml { base := emptyCCGLayer ml
                                    nextUp := some { auto := false, base := sb } } ch.layers },
              ?_, ?_⟩
      · simp only [placeInState, hch, hcond]
        simpa using ilookup_iset_self _ _ _
      · exact ilookup_iset_self _ _ _
  · intro mlayer
    exact ⟨rfl, rfl⟩

/-- C8 (witness): the lookahead layer `exLookaheadObj` (mapped only through
`lookaheadForLayer = "M1"`) resolves to the `M1` mapping, and placing it in an
empty CasparCG state synthesizes the empty foreground with the lookahead as
`nextUp` at channel 1, layer 10. -/
theorem caspar_lookahead_spec_witness :
    resolveFoundMapping exCasparMappings "LA" exLookaheadObj = some exCasparMapping ∧
    (∃ channel', ilookup (if (1 : Int) = 0 then 1 else 1)
        (placeInState {} 1 10 true exLookaheadBase).channels = some channel' ∧
      ilookup 10 channel'.layers =
        some { base := emptyCCGLayer 10
               nextUp := some { auto := false, base := exLookaheadBase } }) :=
  ⟨by
     have := caspar_lookahead_spec.1 exCasparMappings "LA" exLookaheadObj
       (by decide) (by decide) (by decide)
     simpa using this,
   caspar_lookahead_spec.2.2.1 {} 1 10 exLookaheadBase (by exact trivial)⟩

/-! ## C1 — the HTTP differ: per-key characterization and ordering -/

/-- On an association list with unique keys, a `filterMap` whose function vanishes
off key `k` collapses to the value at `(k, v)`. -/
theorem filterMap_assoc_single {α β : Type} {l : List (String × α)}
    (hnd : (l.map Prod.fst).Nodup) {k : String} {v : α} (hm : (k, v) ∈ l)
    (g : String × α → Option β) (hg : ∀ p ∈ l, p.1 ≠ k → g p = none) :
    l.filterMap g = (g (k, v)).toList := by
  induction l with
  | nil => cases hm
  | cons p t ih =>
    obtain ⟨k', v'⟩ := p
    simp only [List.map_cons, List.nodup_cons] at hnd
    rcases List.mem_cons.mp hm with hh | hh
    · cases hh
      rw [List.filterMap_cons]
      have ht : t.filterMap g = [] := by
        rw [List.filterMap_eq_nil_iff]
        intro a ha
        apply hg a (List.mem_cons_of_mem _ ha)
        intro he
        exact hnd.1 (List.mem_map.mpr ⟨a, ha, he⟩)
      cases hgk : g (k, v) with
      | none => simp [hgk, ht]
      | some b => simp [hgk, ht]
    · have hne : k' ≠ k := fun he =>
        hnd.1 (List.mem_map.mpr ⟨(k, v), hh, he.symm⟩)
      rw [List.filterMap_cons, hg (k', v') (List.mem_cons_self _ _) hne]
      exact ih hnd.2 hh (fun p hp hp1 => hg p (List.mem_cons_of_mem _ hp) hp1)

/-- A `filterMap` whose function vanishes off an absent key `k` is empty. -/
theorem filterMap_assoc_none {α β : Type} {l : List (String × α)} {k : String}
    (hk : alookup k l = none) (g : String × α → Option β)
    (hg : ∀ p ∈ l, p.1 ≠ k → g p = none) :
    l.filterMap g = [] := by
  rw [List.filterMap_eq_nil_iff]
  intro a ha
  apply hg a ha
  intro he
  rw [alookup_eq_none_iff] at hk
  exact hk (List.mem_map.mpr ⟨a, ha, he⟩)

/-- Filtering the sorted diff output is, up to permutation, filtering the raw
(unsorted) command list. -/
theorem filter_httpDiffStates_perm (oldState newState : HttpTimelineState)
    (p : HttpCommand → Bool) :
    List.Perm ((httpDiffStates oldState newState).filter p)
      ((httpDiffAddedChanged oldState newState ++ httpDiffRemoved oldState newState).filter p) := by
  unfold httpDiffStates
  exact ((List.mergeSort_perm _ _).filter p).trans ((List.mergeSort_perm _ _).filter p)

/-- Two members of a list occur as a pair sublist in one of the two orders. -/
theorem sublist_pair_of_mem {α : Type} {l : List α} {a b : α} (ha : a ∈ l) (hb : b ∈ l)
    (hne : a ≠ b) : List.Sublist [a, b] l ∨ List.Sublist [b, a] l := by
  induction l with
  | nil => cases ha
  | cons c t ih =>
    rcases List.mem_cons.mp ha with rfl | ha'
    · have hb' : b ∈ t := by
        rcases List.mem_cons.mp hb with rfl | hb'
        · exact absurd rfl hne
        · exact hb'
      exact Or.inl (List.cons_sublist_cons.mpr (List.singleton_sublist.mpr hb'))
    · rcases List.mem_cons.mp hb with rfl | hb'
      · exact Or.inr (List.cons_sublist_cons.mpr (List.singleton_sublist.mpr ha'))
      · rcases ih ha' hb' with h | h
        · exact Or.inl (h.cons _)
        · exact Or.inr (h.cons _)

/-- In a duplicate-free list, a pair cannot occur as a sublist in both orders. -/
theorem eq_of_pair_sublists {α : Type} {l : List α} (hnd : l.Nodup) {a b : α}
    (h1 : List.Sublist [a, b] l) (h2 : List.Sublist [b, a] l) : a = b := by
  induction l with
  | nil => cases h1
  | cons c t ih =>
    rw [List.nodup_cons] at hnd
    cases h1 with
    | cons _ h1' =>
      cases h2 with
      | cons _ h2' => exact ih hnd.2 h1' h2'
      | cons₂ _ h2' =>
        exact absurd (h1'.subset (by simp)) hnd.1
    | cons₂ _ h1' =>
      cases h2 with
      | cons _ h2' =>
        exact absurd (h2'.subset (by simp)) hnd.1
      | cons₂ _ h2' => rfl

theorem leLayer_trans : ∀ (a b c : HttpCommand), leLayer a b → leLayer b c → leLayer a c := by
  intro a b c hab hbc
  simp only [leLayer, decide_eq_true_eq] at *
  exact le_trans hab hbc

theorem leLayer_total : ∀ (a b : HttpCommand), leLayer a b || leLayer b a := by
  intro a b
  simp only [leLayer, Bool.or_eq_true, decide_eq_true_eq]
  exact le_total a.layer b.layer

theorem lePrio_trans : ∀ (a b c : HttpCommand), lePrio a b → lePrio b c → lePrio a c := by
  intro a b c hab hbc
  simp only [lePrio, decide_eq_true_eq] at *
  exact le_trans hab hbc

theorem lePrio_total : ∀ (a b : HttpCommand), lePrio a b || lePrio b a := by
  intro a b
  simp only [lePrio, Bool.or_eq_true, decide_eq_true_eq]
  exact le_total (tprio a) (tprio b)

/-- The double stable sort of `_diffStates` orders commands by temporal priority
ascending, ties broken by layer name — provided layer names are distinct. -/
theorem pairwise_lex_double_mergeSort (l : List HttpCommand)
    (hnd : (l.map HttpCommand.layer).Nodup) :
    ((l.mergeSort leLayer).mergeSort lePrio).Pairwise
      (fun a b => tprio a < tprio b ∨ (tprio a = tprio b ∧ a.layer < b.layer)) := by
  set s1 := l.mergeSort leLayer with hs1
  have hperm1 : List.Perm s1 l := List.mergeSort_perm l leLayer
  have hnd1 : (s1.map HttpCommand.layer).Nodup :=
    ((hperm1.map HttpCommand.layer).nodup_iff).mpr hnd
  have hsorted1 : s1.Pairwise (fun a b => leLayer a b) :=
    List.sorted_mergeSort leLayer_trans leLayer_total l
  have hstrict1 : s1.Pairwise (fun a b => a.layer < b.layer) := by
    have hne1 : s1.Pairwise (fun a b => a.layer ≠ b.layer) :=
      (List.pairwise_map).mp hnd1
    exact (hsorted1.and hne1).imp
      (fun h => lt_of_le_of_ne (by simpa [leLayer] using h.1) h.2)
  set s2 := s1.mergeSort lePrio with hs2
  have hperm2 : List.Perm s2 s1 := List.mergeSort_perm s1 lePrio
  have hndl2 : (s2.map HttpCommand.layer).Nodup :=
    ((hperm2.map HttpCommand.layer).nodup_iff).mpr hnd1
  have hnodup2 : s2.Nodup := hndl2.of_map
  have hsorted2 : s2.Pairwise (fun a b => lePrio a b) :=
    List.sorted_mergeSort lePrio_trans lePrio_total s1
  rw [List.pairwise_iff_forall_sublist]
  intro a b hab
  have hle : tprio a ≤ tprio b := by
    have := List.pairwise_iff_forall_sublist.mp hsorted2 hab
    simpa [lePrio] using this
  rcases lt_or_eq_of_le hle with hlt | heq
  · exact Or.inl hlt
  · refine Or.inr ⟨heq, ?_⟩
    have hneab : a.layer ≠ b.layer :=
      List.pairwise_iff_forall_sublist.mp ((List.pairwise_map).mp hndl2) hab
    rcases lt_trichotomy a.layer b.layer with h | h | h
    · exact h
    · exact absurd h hneab
    · exfalso
      have hamem : a ∈ s1 := hperm2.subset (hab.subset (by simp))
      have hbmem : b ∈ s1 := hperm2.subset (hab.subset (by simp))
      have hne' : a ≠ b := fun he => hneab (by rw [he])
      rcases sublist_pair_of_mem hamem hbmem hne' with hs | hs
      · exact absurd (List.pairwise_iff_forall_sublist.mp hstrict1 hs)
          (not_lt.mpr (le_of_lt h))
      · have hba : List.Sublist [b, a] s2 :=
          List.pair_sublist_mergeSort lePrio_trans lePrio_total
            (by simp [lePrio, heq]) hs
        exact hne' (eq_of_pair_sublists hnodup2 hab hba)

/-- The layers of the commands produced by a `filterMap` over an association list
form a sublist of the list's keys, provided the function tags each command with
its entry's key. -/
theorem map_layer_filterMap_sublist {α : Type} (l : List (String × α))
    (g : String × α → Option HttpCommand)
    (hlay : ∀ p b, g p = some b → b.layer = p.1) :
    List.Sublist ((l.filterMap g).map HttpCommand.layer) (l.map Prod.fst) := by
  induction l with
  | nil => simp
  | cons p t ih =>
    rw [List.filterMap_cons]
    cases hgp : g p with
    | none =>
      rw [List.map_cons]
      exact (ih).cons _
    | some b =>
      rw [List.map_cons, List.map_cons, hlay p b hgp]
      exact List.cons_sublist_cons.mpr ih

/-- Every command of the added/changed walk is tagged with its layer key. -/
theorem layer_of_httpDiffAddedChanged {oldState : HttpTimelineState} :
    ∀ (p : String × HttpTimelineObject) (b : HttpCommand),
      (match alookup p.1 oldState.layers with
      | none =>
        some { commandName := .added
               content := p.2.content
               context := "added: " ++ p.2.id
               timelineObjId := p.2.id
               layer := p.1 }
      | some oldLayer =>
        if oldLayer.content = p.2.content then
          none
        else
          some { commandName := .changed
                 content := p.2.content
                 context := "changed: " ++ p.2.id ++ " (previously: " ++ oldLayer.id ++ ")"
                 timelineObjId := p.2.id
                 layer := p.1 } :
        Option HttpCommand) = some b → b.layer = p.1 := by
  intro p b h
  cases halt : alookup p.1 oldState.layers with
  | none =>
    rw [halt] at h
    simp only [Option.some.injEq] at h
    rw [← h]
  | some ol =>
    rw [halt] at h
    simp only at h
    by_cases hco : ol.content = p.2.content
    · rw [if_pos hco] at h
      exact Option.noConfusion h
    · rw [if_neg hco] at h
      simp only [Option.some.injEq] at h
      rw [← h]

/-- Every command of the removed walk is tagged with its layer key and stems from
a key absent in the new state. -/
theorem layer_of_httpDiffRemoved {newState : HttpTimelineState} :
    ∀ (p : String × HttpTimelineObject) (b : HttpCommand),
      (match alookup p.1 newState.layers with
      | some _ => none
      | none =>
        some { commandName := .removed
               content := p.2.content
               context := "removed: " ++ p.2.id
               timelineObjId := p.2.id
               layer := p.1 } :
        Option HttpCommand) = some b →
      b.layer = p.1 ∧ alookup p.1 newState.layers = none := by
  intro p b h
  cases halt : alookup p.1 newState.layers with
  | none =>
    rw [halt] at h
    simp only [Option.some.injEq] at h
    exact ⟨by rw [← h], rfl⟩
  | some nl =>
    rw [halt] at h
    simp at h

/-- The raw (unsorted) command list of `_diffStates` has pairwise-distinct layers
when both states have unique keys. -/
theorem nodup_layers_httpDiff {oldState newState : HttpTimelineState}
    (hold : (oldState.layers.map Prod.fst).Nodup)
    (hnew : (newState.layers.map Prod.fst).Nodup) :
    (((httpDiffAddedChanged oldState newState ++ httpDiffRemoved oldState newState).map
        HttpCommand.layer)).Nodup := by
  rw [List.map_append]
  have hA : List.Sublist ((httpDiffAddedChanged oldState newState).map HttpCommand.layer)
      (newState.layers.map Prod.fst) :=
    map_layer_filterMap_sublist _ _ (fun p b h => layer_of_httpDiffAddedChanged p b h)
  have hR : List.Sublist ((httpDiffRemoved oldState newState).map HttpCommand.layer)
      (oldState.layers.map Prod.fst) :=
    map_layer_filterMap_sublist _ _ (fun p b h => (layer_of_httpDiffRemoved p b h).1)
  refine List.Nodup.append (hnew.sublist hA) (hold.sublist hR) ?_
  intro x hx hx'
  obtain ⟨cA, hcA, hlA⟩ := List.mem_map.mp hx
  obtain ⟨cR, hcR, hlR⟩ := List.mem_map.mp hx'
  obtain ⟨pR, hpR, hgR⟩ := List.mem_filterMap.mp hcR
  obtain ⟨hRl, hRnone⟩ := layer_of_httpDiffRemoved pR cR hgR
  have hxnew : x ∈ newState.layers.map Prod.fst := hA.subset hx
  rw [← hlR, hRl] at hxnew
  rw [alookup_eq_none_iff] at hRnone
  exact hRnone hxnew

/-- Off its key, an added/changed command never survives the layer filter. -/
theorem filterA_off_key (oldState : HttpTimelineState) (k : String) :
    ∀ (p : String × HttpTimelineObject), p.1 ≠ k →
      Option.filter (fun c => c.layer == k)
        ((match alookup p.1 oldState.layers with
          | none =>
            some { commandName := .added
                   content := p.2.content
                   context := "added: " ++ p.2.id
                   timelineObjId := p.2.id
                   layer := p.1 }
          | some oldLayer =>
            if oldLayer.content = p.2.content then
              none
            else
              some { commandName := .changed
                     content := p.2.content
                     context := "changed: " ++ p.2.id ++ " (previously: " ++ oldLayer.id ++ ")"
                     timelineObjId := p.2.id
                     layer := p.1 } : Option HttpCommand)) = none := by
  intro p hne
  cases halt : alookup p.1 oldState.layers with
  | none => simp [Option.filter, hne]
  | some ol =>
    by_cases hco : ol.content = p.2.content
    · simp [Option.filter, hco]
    · simp [Option.filter, hco, hne]

/-- Off its key, a removed command never survives the layer filter. -/
theorem filterR_off_key (newState : HttpTimelineState) (k : String) :
    ∀ (p : String × HttpTimelineObject), p.1 ≠ k →
      Option.filter (fun c => c.layer == k)
        ((match alookup p.1 newState.layers with
          | some _ => none
          | none =>
            some { commandName := .removed
                   content := p.2.content
                   context := "removed: " ++ p.2.id
                   timelineObjId := p.2.id
                   layer := p.1 } : Option HttpCommand)) = none := by
  intro p hne
  cases halt : alookup p.1 newState.layers with
  | some nl => simp [Option.filter]
  | none => simp [Option.filter, hne]

/-- C1: `_diffStates` emits, per layer key, exactly one `added` command for a key
new-only, exactly one `changed` command for a key present in both states whose
content deep-differs, no command when the contents are deep-equal, and exactly
one `removed` command for a key old-only; and the returned list is ordered by
temporal priority ascending (missing priority counting as 0), ties broken by
layer name. -/
theorem httpSend_diffStates_spec :
    ∀ (oldState newState : HttpTimelineState),
      (oldState.layers.map Prod.fst).Nodup →
      (newState.layers.map Prod.fst).Nodup →
      (∀ (k : String) (newLayer : HttpTimelineObject),
         (k, newLayer) ∈ newState.layers → alookup k oldState.layers = none →
         (httpDiffStates oldState newState).filter (fun c => c.layer == k) =
           [addedCommand k newLayer]) ∧
      (∀ (k : String) (newLayer oldLayer : HttpTimelineObject),
         (k, newLayer) ∈ newState.layers → alookup k oldState.layers = some oldLayer →
         oldLayer.content ≠ newLayer.content →
         (httpDiffStates oldState newState).filter (fun c => c.layer == k) =
           [changedCommand k newLayer oldLayer]) ∧
      (∀ (k : String) (newLayer oldLayer : HttpTimelineObject),
         (k, newLayer) ∈ newState.layers → alookup k oldState.layers = some oldLayer →
         oldLayer.content = newLayer.content →
         (httpDiffStates oldState newState).filter (fun c => c.layer == k) = []) ∧
      (∀ (k : String) (oldLayer : HttpTimelineObject),
         (k, oldLayer) ∈ oldState.layers → alookup k newState.layers = none →
         (httpDiffStates oldState newState).filter (fun c => c.layer == k) =
           [removedCommand k oldLayer]) ∧
      (httpDiffStates oldState newState).Pairwise
        (fun a b => tprio a < tprio b ∨ (tprio a = tprio b ∧ a.layer < b.layer)) := by
  intro old new hold hnew
  refine ⟨?_, ?_, ?_, ?_, ?_⟩
  · -- added
    intro k newLayer hm halt
    have hA : (httpDiffAddedChanged old new).filter (fun c => c.layer == k) =
        [addedCommand k newLayer] := by
      rw [httpDiffAddedChanged, List.filter_filterMap]
      rw [filterMap_assoc_single hnew hm _ (fun p _ hne => filterA_off_key old k p hne)]
      simp [halt, Option.filter, addedCommand]
    have hR : (httpDiffRemoved old new).filter (fun c => c.layer == k) = [] := by
      rw [httpDiffRemoved, List.filter_filterMap]
      exact filterMap_assoc_none halt _ (fun p _ hne => filterR_off_key new k p hne)
    have h := filter_httpDiffStates_perm old new (fun c => c.layer == k)
    rw [List.filter_append, hA, hR] at h
    exact List.perm_singleton.mp (by simpa using h)
  · -- changed
    intro k newLayer oldLayer hm halt hco
    have hknew : alookup k new.layers = some newLayer := alookup_eq_some_of_mem hnew hm
    have hmOld : (k, oldLayer) ∈ old.layers := mem_of_alookup_eq_some halt
    have hA : (httpDiffAddedChanged old new).filter (fun c => c.layer == k) =
        [changedCommand k newLayer oldLayer] := by
      rw [httpDiffAddedChanged, List.filter_filterMap]
      rw [filterMap_assoc_single hnew hm _ (fun p _ hne => filterA_off_key old k p hne)]
      simp [halt, Option.filter, changedCommand, hco]
    have hR : (httpDiffRemoved old new).filter (fun c => c.layer == k) = [] := by
      rw [httpDiffRemoved, List.filter_filterMap]
      rw [filterMap_assoc_single hold hmOld _ (fun p _ hne => filterR_off_key new k p hne)]
      simp [hknew, Option.filter]
    have h := filter_httpDiffStates_perm old new (fun c => c.layer == k)
    rw [List.filter_append, hA, hR] at h
    exact List.perm_singleton.mp (by simpa using h)
  · -- unchanged
    intro k newLayer oldLayer hm halt hco
    have hknew : alookup k new.layers = some newLayer := alookup_eq_some_of_mem hnew hm
    have hmOld : (k, oldLayer) ∈ old.layers := mem_of_alookup_eq_some halt
    have hA : (httpDiffAddedChanged old new).filter (fun c => c.layer == k) = [] := by
      rw [httpDiffAddedChanged, List.filter_filterMap]
      rw [filterMap_assoc_single hnew hm _ (fun p _ hne => filterA_off_key old k p hne)]
      simp [halt, Option.filter, hco]
    have hR : (httpDiffRemoved old new).filter (fun c => c.layer == k) = [] := by
      rw [httpDiffRemoved, List.filter_filterMap]
      rw [filterMap_assoc_single hold hmOld _ (fun p _ hne => filterR_off_key new k p hne)]
      simp [hknew, Option.filter]
    have h := filter_httpDiffStates_perm old new (fun c => c.layer == k)
    rw [List.filter_append, hA, hR] at h
    exact List.perm_nil.mp (by simpa using h)
  · -- removed
    intro k oldLayer hm halt
    have hA : (httpDiffAddedChanged old new).filter (fun c => c.layer == k) = [] := by
      rw [httpDiffAddedChanged, List.filter_filterMap]
      exact filterMap_assoc_none halt _ (fun p _ hne => filterA_off_key old k p hne)
    have hR : (httpDiffRemoved old new).filter (fun c => c.layer == k) =
        [removedCommand k oldLayer] := by
      rw [httpDiffRemoved, List.filter_filterMap]
      rw [filterMap_assoc_single hold hm _ (fun p _ hne => filterR_off_key new k p hne)]
      simp [halt, Option.filter, removedCommand]
    have h := filter_httpDiffStates_perm old new (fun c => c.layer == k)
    rw [List.filter_append, hA, hR] at h
    exact List.perm_singleton.mp (by simpa using h)
  · -- ordering
    rw [httpDiffStates]
    exact pairwise_lex_double_mergeSort _ (nodup_layers_httpDiff hold hnew)

/-- C1 (witness): on the concrete states, layer L2 yields exactly one added
command, L1 exactly one changed command, L4 (deep-equal content) none, and L3
exactly one removed command. -/
theorem httpSend_diffStates_spec_witness :
    (httpDiffStates exHttpOld exHttpNew).filter (fun c => c.layer == "L2") =
      [addedCommand "L2" { id := "o2", content := exContentGet }] ∧
    (httpDiffStates exHttpOld exHttpNew).filter (fun c => c.layer == "L1") =
      [changedCommand "L1" { id := "o1b", content := exContentPost2 }
        { id := "o1", content := exContentPost }] ∧
    (httpDiffStates exHttpOld exHttpNew).filter (fun c => c.layer == "L4") = [] ∧
    (httpDiffStates exHttpOld exHttpNew).filter (fun c => c.layer == "L3") =
      [removedCommand "L3" { id := "o3", content := exContentGet }] :=
  have H := httpSend_diffStates_spec exHttpOld exHttpNew (by decide) (by decide)
  ⟨H.1 "L2" { id := "o2", content := exContentGet } (by decide) (by decide),
   H.2.1 "L1" { id := "o1b", content := exContentPost2 } { id := "o1", content := exContentPost }
     (by decide) (by decide) (by decide),
   H.2.2.1 "L4" { id := "o4", content := exContentGet } { id := "o4", content := exContentGet }
     (by decide) (by decide) (by decide),
   H.2.2.2.1 "L3" { id := "o3", content := exContentGet } (by decide) (by decide)⟩
